import Mathlib

/-!
# Marketplace backend: request handlers over a relational store

A shallow embedding of `controllers/postController.js` and
`controllers/userController.js`.

* `JsNum`, `JsVal`: the JavaScript values the handlers manipulate, with the
  coercions the source relies on (`!x`, `parseInt`, `-`, `*`, `/`, `<`,
  `===`, `Math.ceil`).  Numbers are exact: a finite number is a rational, so
  rounding to a double, overflow and the sign of zero are not represented.
* `Json`: the value handed to `res.json`.
* `Env`, `World`: the collaborators of a handler (connection pool, media
  uploader, password hasher, token signer, clock) and the trace of calls made
  to them.
* `usersQuery`, `savedQuery`, `pageRows`: the answers of the store to the
  statements of the handlers, where a property depends on the content of the
  `users` and `saved_posts` tables or on `LIMIT`/`OFFSET`.
-/

namespace Backend

/-! ## Numbers -/

/-- A JavaScript number: `NaN`, an infinity, or a finite (exact) value. -/
inductive JsNum where
  | nan
  | posInf
  | negInf
  | fin (q : ℚ)
  deriving DecidableEq, Repr

namespace JsNum

/-- The number `x - y`. -/
def sub : JsNum → JsNum → JsNum
  | nan, _ => nan
  | _, nan => nan
  | posInf, posInf => nan
  | negInf, negInf => nan
  | posInf, _ => posInf
  | negInf, _ => negInf
  | fin _, posInf => negInf
  | fin _, negInf => posInf
  | fin a, fin b => fin (a - b)

/-- An infinity times a finite factor: `NaN` for zero, else by sign. -/
def infTimes (positive : Bool) (q : ℚ) : JsNum :=
  if q = 0 then nan
  else if 0 < q then (if positive then posInf else negInf)
  else (if positive then negInf else posInf)

/-- The number `x * y`. -/
def mul : JsNum → JsNum → JsNum
  | nan, _ => nan
  | _, nan => nan
  | posInf, posInf => posInf
  | negInf, negInf => posInf
  | posInf, negInf => negInf
  | negInf, posInf => negInf
  | posInf, fin b => infTimes true b
  | negInf, fin b => infTimes false b
  | fin a, posInf => infTimes true a
  | fin a, negInf => infTimes false a
  | fin a, fin b => fin (a * b)

/-- The number `x / y`; a zero divisor counts as `+0`. -/
def div : JsNum → JsNum → JsNum
  | nan, _ => nan
  | _, nan => nan
  | fin _, posInf => fin 0
  | fin _, negInf => fin 0
  | fin a, fin b =>
    if b = 0 then (if a = 0 then nan else if 0 < a then posInf else negInf)
    else fin (a / b)
  | posInf, fin b => if 0 ≤ b then posInf else negInf
  | negInf, fin b => if 0 ≤ b then negInf else posInf
  | _, _ => nan

/-- The comparison `x < y` (false as soon as one side is `NaN`). -/
def lt : JsNum → JsNum → Bool
  | nan, _ => false
  | _, nan => false
  | posInf, _ => false
  | _, negInf => false
  | negInf, _ => true
  | fin _, posInf => true
  | fin a, fin b => decide (a < b)

/-- The comparison `x <= y` (false as soon as one side is `NaN`). -/
def le : JsNum → JsNum → Bool
  | nan, _ => false
  | _, nan => false
  | negInf, _ => true
  | _, posInf => true
  | posInf, _ => false
  | fin _, negInf => false
  | fin a, fin b => decide (a ≤ b)

/-- The test `x === y` on numbers: `NaN` equals nothing. -/
def strictEq : JsNum → JsNum → Bool
  | nan, _ => false
  | _, nan => false
  | posInf, posInf => true
  | negInf, negInf => true
  | fin a, fin b => decide (a = b)
  | _, _ => false

/-- `Math.ceil`. -/
def ceil : JsNum → JsNum
  | fin q => fin ((⌈q⌉ : ℤ) : ℚ)
  | x => x

/-- Whether `!!x` is true for a number: neither `0` nor `NaN`. -/
def truthy : JsNum → Bool
  | nan => false
  | fin q => decide (q ≠ 0)
  | _ => true

/-- The first significant decimal digit of a positive rational. -/
def leadingDigit (q : ℚ) : ℕ :=
  if 1 ≤ q then
    let n := q.num.toNat / q.den
    n / 10 ^ Nat.log 10 n
  else
    let k := Nat.clog 10 ((q.den + q.num.toNat - 1) / q.num.toNat)
    q.num.toNat * 10 ^ k / q.den

/-- The integer `parseInt` reads off the decimal rendering of a number.
Between `1e-6` and `1e21` the rendering is positional and the integer part is
read; outside it is in exponent form and only the first digit is read. -/
def parseIntOf : JsNum → JsNum
  | fin q =>
    if q = 0 then fin 0
    else if |q| < 1 / 10 ^ 6 ∨ (10 : ℚ) ^ 21 ≤ |q| then
      fin ((if 0 < q then 1 else -1) * (leadingDigit |q| : ℚ))
    else fin ((if 0 < q then 1 else -1) * ((⌊|q|⌋ : ℤ) : ℚ))
  | _ => nan

end JsNum

/-! ## Reading numbers out of strings -/

/-- White space and line terminators of the language. -/
def isJsSpace (c : Char) : Bool :=
  [9, 10, 11, 12, 13, 32, 0xA0, 0x1680, 0x2028, 0x2029, 0x202F, 0x205F, 0x3000, 0xFEFF].contains c.toNat
    || (0x2000 ≤ c.toNat && c.toNat ≤ 0x200A)

/-- The value of a character as a digit in bases up to 36. -/
def digitVal (c : Char) : Option ℕ :=
  if '0' ≤ c ∧ c ≤ '9' then some (c.toNat - '0'.toNat)
  else if 'a' ≤ c ∧ c ≤ 'z' then some (c.toNat - 'a'.toNat + 10)
  else if 'A' ≤ c ∧ c ≤ 'Z' then some (c.toNat - 'A'.toNat + 10)
  else none

/-- Splits off the longest prefix of digits of the given radix. -/
def takeDigits (radix : ℕ) : List Char → List ℕ × List Char
  | [] => ([], [])
  | c :: cs =>
    match digitVal c with
    | some d =>
      if d < radix then ((d :: (takeDigits radix cs).1), (takeDigits radix cs).2)
      else ([], c :: cs)
    | none => ([], c :: cs)

/-- The natural number written by a list of digits, most significant first. -/
def ofDigits (radix : ℕ) (ds : List ℕ) : ℕ :=
  ds.foldl (fun acc d => acc * radix + d) 0

/-- Splits off a leading sign: `true` for `-`. -/
def takeSign : List Char → Bool × List Char
  | '-' :: cs => (true, cs)
  | '+' :: cs => (false, cs)
  | cs => (false, cs)

/-- `parseInt(s)` for a string `s`, no radix given: leading white space is
skipped, a sign and a `0x` prefix are honoured, the longest run of digits is
read and what follows is ignored; `NaN` when there is no digit. -/
def parseIntStr (s : List Char) : JsNum :=
  let signed := takeSign (s.dropWhile isJsSpace)
  let body : ℕ × List Char :=
    match signed.2 with
    | '0' :: 'x' :: cs => (16, cs)
    | '0' :: 'X' :: cs => (16, cs)
    | cs => (10, cs)
  let ds := (takeDigits body.1 body.2).1
  if ds.isEmpty then JsNum.nan
  else JsNum.fin ((if signed.1 then -1 else 1) * (ofDigits body.1 ds : ℚ))

/-- A whole string of digits of the given radix (at least one), else `NaN`. -/
def wholeDigits (radix : ℕ) (cs : List Char) : JsNum :=
  let r := takeDigits radix cs
  if r.1.isEmpty ∨ ¬ r.2.isEmpty then JsNum.nan else JsNum.fin (ofDigits radix r.1 : ℚ)

/-- The exponent part of a decimal literal: nothing, or `e`/`E`, an optional
sign and at least one digit, up to the end of the string. -/
def exponentPart : List Char → Option ℤ
  | [] => some 0
  | c :: cs =>
    if c = 'e' ∨ c = 'E' then
      let signed := takeSign cs
      let r := takeDigits 10 signed.2
      if r.1.isEmpty ∨ ¬ r.2.isEmpty then none
      else some ((if signed.1 then -1 else 1) * (ofDigits 10 r.1 : ℤ))
    else none

/-- An unsigned decimal literal: digits, an optional fraction, an optional
exponent, with a digit before or after the point. -/
def unsignedDecimal (cs : List Char) : Option ℚ :=
  let ip := takeDigits 10 cs
  let fp : List ℕ × List Char :=
    match ip.2 with
    | '.' :: rest => takeDigits 10 rest
    | rest => ([], rest)
  if ip.1.isEmpty ∧ fp.1.isEmpty then none
  else
    match exponentPart fp.2 with
    | none => none
    | some e =>
      some (((ofDigits 10 ip.1 : ℚ) + (ofDigits 10 fp.1 : ℚ) / 10 ^ fp.1.length) * 10 ^ e)

/-- The conversion of a string to a number (`Number(s)`, and what `-`, `*`,
`/` and `<` apply to a string operand): the trimmed string is empty (zero), a
binary, octal or hexadecimal integer, a signed `Infinity` or a signed decimal
literal; anything else is `NaN`. -/
def stringToNumber (s : List Char) : JsNum :=
  let t := ((s.dropWhile isJsSpace).reverse.dropWhile isJsSpace).reverse
  match t with
  | [] => JsNum.fin 0
  | '0' :: 'x' :: cs => wholeDigits 16 cs
  | '0' :: 'X' :: cs => wholeDigits 16 cs
  | '0' :: 'o' :: cs => wholeDigits 8 cs
  | '0' :: 'O' :: cs => wholeDigits 8 cs
  | '0' :: 'b' :: cs => wholeDigits 2 cs
  | '0' :: 'B' :: cs => wholeDigits 2 cs
  | _ =>
    let signed := takeSign t
    if signed.2 = "Infinity".toList then (if signed.1 then JsNum.negInf else JsNum.posInf)
    else
      match unsignedDecimal signed.2 with
      | none => JsNum.nan
      | some q => JsNum.fin (if signed.1 then -q else q)

/-! ## Values -/

/-- The values a handler reads from a request, a row or a collaborator. A
`Date` is carried by its time value in milliseconds. -/
inductive JsVal where
  | undefined
  | null
  | bool (b : Bool)
  | num (n : JsNum)
  | str (s : String)
  | date (t : JsNum)
  deriving DecidableEq, Repr

namespace JsVal

/-- Whether `!!v` is true. -/
def truthy : JsVal → Bool
  | undefined => false
  | null => false
  | bool b => b
  | num n => n.truthy
  | str s => decide (s ≠ "")
  | date _ => true

/-- The test `typeof v === 'string'`. -/
def isString : JsVal → Bool
  | str _ => true
  | _ => false

/-- The numeric conversion applied by `-`, `*`, `/`, `<`, `<=` and `>`. -/
def toNumber : JsVal → JsNum
  | undefined => JsNum.nan
  | null => JsNum.fin 0
  | bool b => JsNum.fin (if b then 1 else 0)
  | num n => n
  | str s => stringToNumber s.toList
  | date t => t

/-- `parseInt(v)`: the argument is first rendered as a string. -/
def parseInt : JsVal → JsNum
  | str s => parseIntStr s.toList
  | num n => n.parseIntOf
  | _ => JsNum.nan

/-- The test `a === b`; two `Date` objects are never the same object. -/
def strictEq : JsVal → JsVal → Bool
  | undefined, undefined => true
  | null, null => true
  | bool a, bool b => a == b
  | num a, num b => a.strictEq b
  | str a, str b => a == b
  | _, _ => false

/-- The difference `a - b`. -/
def sub (a b : JsVal) : JsVal := num (a.toNumber.sub b.toNumber)

/-- The product `a * b`. -/
def mul (a b : JsVal) : JsVal := num (a.toNumber.mul b.toNumber)

/-- The quotient `a / b`. -/
def div (a b : JsVal) : JsVal := num (a.toNumber.div b.toNumber)

/-- The comparison `a < b` where an operand is a number or a date. -/
def lt (a b : JsVal) : Bool := a.toNumber.lt b.toNumber

/-- The comparison `a <= b` where an operand is a number or a date. -/
def le (a b : JsVal) : Bool := a.toNumber.le b.toNumber

/-- The comparison `a > b` where an operand is a number or a date. -/
def gt (a b : JsVal) : Bool := b.toNumber.lt a.toNumber

/-- `Math.ceil(v)`. -/
def ceil (v : JsVal) : JsVal := num v.toNumber.ceil

end JsVal

/-! ## Rows, response bodies, thrown errors -/

/-- An object with primitive fields: a result row, `req.body`, `req.query`,
`req.params`, `req.file`, `req.user`, a token payload. -/
abbrev Row := List (String × JsVal)

/-- The property read `row.key`: `undefined` when the row has no such field. -/
def Row.get (r : Row) (key : String) : JsVal :=
  (r.lookup key).getD JsVal.undefined

/-- The value handed to `res.json`. -/
inductive Json where
  | val (v : JsVal)
  | obj (fields : List (String × Json))
  | arr (items : List Json)

mutual
/-- Decides the equality of two response bodies. -/
def Json.decEq : (a b : Json) → Decidable (a = b)
  | .val a, .val b =>
    if h : a = b then isTrue (by rw [h]) else isFalse (fun h2 => h (Json.val.inj h2))
  | .obj a, .obj b =>
    match Json.decEqFields a b with
    | isTrue h => isTrue (by rw [h])
    | isFalse h => isFalse (fun h2 => h (Json.obj.inj h2))
  | .arr a, .arr b =>
    match Json.decEqItems a b with
    | isTrue h => isTrue (by rw [h])
    | isFalse h => isFalse (fun h2 => h (Json.arr.inj h2))
  | .val _, .obj _ => isFalse (fun h => Json.noConfusion h)
  | .val _, .arr _ => isFalse (fun h => Json.noConfusion h)
  | .obj _, .val _ => isFalse (fun h => Json.noConfusion h)
  | .obj _, .arr _ => isFalse (fun h => Json.noConfusion h)
  | .arr _, .val _ => isFalse (fun h => Json.noConfusion h)
  | .arr _, .obj _ => isFalse (fun h => Json.noConfusion h)
/-- Decides the equality of two field lists. -/
def Json.decEqFields : (a b : List (String × Json)) → Decidable (a = b)
  | [], [] => isTrue rfl
  | (k, v) :: a, (k2, v2) :: b =>
    if hk : k = k2 then
      match Json.decEq v v2 with
      | isTrue hv =>
        match Json.decEqFields a b with
        | isTrue h => isTrue (by rw [hk, hv, h])
        | isFalse h => isFalse (fun h2 => h (List.cons.inj h2).2)
      | isFalse hv => isFalse (fun h2 => hv (Prod.mk.inj (List.cons.inj h2).1).2)
    else isFalse (fun h2 => hk (Prod.mk.inj (List.cons.inj h2).1).1)
  | [], _ :: _ => isFalse (fun h => List.noConfusion h)
  | _ :: _, [] => isFalse (fun h => List.noConfusion h)
/-- Decides the equality of two item lists. -/
def Json.decEqItems : (a b : List Json) → Decidable (a = b)
  | [], [] => isTrue rfl
  | v :: a, v2 :: b =>
    match Json.decEq v v2 with
    | isTrue hv =>
      match Json.decEqItems a b with
      | isTrue h => isTrue (by rw [hv, h])
      | isFalse h => isFalse (fun h2 => h (List.cons.inj h2).2)
    | isFalse hv => isFalse (fun h2 => hv (List.cons.inj h2).1)
  | [], _ :: _ => isFalse (fun h => List.noConfusion h)
  | _ :: _, [] => isFalse (fun h => List.noConfusion h)
end

instance : DecidableEq Json := Json.decEq

/-- A row as a response body. -/
def Json.ofRow (r : Row) : Json :=
  Json.obj (r.map fun kv => (kv.1, Json.val kv.2))

/-- The element `rows[0]` as a response body: `undefined` on an empty result. -/
def Json.ofFirst (rows : List Row) : Json :=
  match rows with
  | [] => Json.val JsVal.undefined
  | r :: _ => Json.ofRow r

/-- The field `body.key` of a response body, `undefined` when there is none. -/
def Json.get (j : Json) (key : String) : Json :=
  match j with
  | Json.obj fields => (fields.lookup key).getD (Json.val JsVal.undefined)
  | _ => Json.val JsVal.undefined

/-- The body `{ error: msg }`. -/
def errorBody (msg : String) : Json :=
  Json.obj [("error", Json.val (JsVal.str msg))]

/-- A value thrown by a collaborator; `code` is the store's error code,
`undefined` for errors that carry none. -/
structure JsError where
  code : JsVal
  message : String
  deriving DecidableEq, Repr

/-- What a handler sends: `res.status(s).json(body)`; `res.json(body)` alone
sends status 200. -/
structure Response where
  status : ℕ
  body : Json
  deriving DecidableEq

/-- The incoming request, as the handlers read it. -/
structure Request where
  body : Row
  query : Row
  params : Row
  file : Option Row
  user : Option Row
  deriving DecidableEq, Repr

/-! ## Collaborators and the trace of calls -/

/-- A call made to a collaborator. -/
inductive Effect where
  | query (sql : String) (params : List JsVal)
  | upload (path : JsVal)
  | unlink (path : JsVal)
  | hash (password : JsVal)
  | compare (password : JsVal) (hash : JsVal)
  | sign (payload : Row)
  deriving DecidableEq, Repr

/-- The collaborators of the handlers. The store is a deterministic machine
over states `σ` that answers a statement and its parameters with rows or
throws; the uploader, hasher and signer are functions of their arguments. -/
structure Env (σ : Type) where
  query : σ → String → List JsVal → Except JsError (List Row) × σ
  upload : JsVal → Except JsError Row
  hashPassword : String → String
  checkPassword : String → String → Bool
  sign : Row → Except JsError String
  now : JsNum
  parseDate : String → JsNum

/-- The state threaded through a handler: the store and the calls so far. -/
structure World (σ : Type) where
  store : σ
  trace : List Effect

variable {σ : Type}

/-- The call `await pool.query(sql, params)`. -/
def poolQuery (env : Env σ) (sql : String) (params : List JsVal) (w : World σ) :
    Except JsError (List Row) × World σ :=
  ((env.query w.store sql params).1,
    ⟨(env.query w.store sql params).2, w.trace ++ [Effect.query sql params]⟩)

/-- The call `await cloudinary.uploader.upload(path, { resource_type: 'auto' })`. -/
def cloudinaryUpload (env : Env σ) (path : JsVal) (w : World σ) :
    Except JsError Row × World σ :=
  (env.upload path, ⟨w.store, w.trace ++ [Effect.upload path]⟩)

/-- The call `fs.unlink(path, callback)`; a failure is only logged. -/
def fsUnlink (path : JsVal) (w : World σ) : World σ :=
  ⟨w.store, w.trace ++ [Effect.unlink path]⟩

/-- The call `await bcrypt.hash(password, 10)`; the library rejects a
password that is not a string. -/
def bcryptHash (env : Env σ) (password : JsVal) (w : World σ) :
    Except JsError String × World σ :=
  (match password with
    | JsVal.str s => Except.ok (env.hashPassword s)
    | _ => Except.error ⟨JsVal.undefined, "Illegal arguments"⟩,
   ⟨w.store, w.trace ++ [Effect.hash password]⟩)

/-- The call `await bcrypt.compare(password, hash)`; the library rejects
arguments that are not both strings. -/
def bcryptCompare (env : Env σ) (password hash : JsVal) (w : World σ) :
    Except JsError Bool × World σ :=
  (match password, hash with
    | JsVal.str s, JsVal.str h => Except.ok (env.checkPassword s h)
    | _, _ => Except.error ⟨JsVal.undefined, "Illegal arguments"⟩,
   ⟨w.store, w.trace ++ [Effect.compare password hash]⟩)

/-- The call `jwt.sign(payload, process.env.JWT_SECRET, { expiresIn: '1h' })`. -/
def jwtSign (env : Env σ) (payload : Row) (w : World σ) :
    Except JsError String × World σ :=
  (env.sign payload, ⟨w.store, w.trace ++ [Effect.sign payload]⟩)

/-- The time value of `new Date(n)` for a number `n`: its integer part, or
`NaN` beyond 8.64e15 milliseconds. -/
def timeClip : JsNum → JsNum
  | JsNum.fin q =>
    if (8640000000000000 : ℚ) < |q| then JsNum.nan
    else JsNum.fin ((if 0 ≤ q then 1 else -1) * ((⌊|q|⌋ : ℤ) : ℚ))
  | _ => JsNum.nan

/-- The expression `new Date(v)`. -/
def newDate (env : Env σ) (v : JsVal) : JsVal :=
  match v with
  | JsVal.str s => JsVal.date (env.parseDate s)
  | JsVal.date t => JsVal.date t
  | other => JsVal.date (timeClip other.toNumber)

/-! ## `controllers/postController.js` -/

/-- Statement of `createPost` that looks the advertiser up. -/
def sqlSelectAdvertiser : String := "SELECT id, role FROM users WHERE id = $1"

/-- Statement of `createPost` that stores the post. -/
def sqlInsertPost : String :=
  "INSERT INTO posts (advertiser_id, category_id, type, title, description, price, old_price, with_reservation, reservation_time, reservation_limit, social_link, media_url) VALUES ($1, $2, $3, $4, $5, $6, $7, $8, $9, $10, $11, $12) RETURNING *"

/-- Statement of `createPost` that reads the stored post back. -/
def sqlCompletePost : String :=
  "\n            SELECT \n                p.*,\n                c.name as category_name,\n                u.name as advertiser_name\n            FROM posts p\n            LEFT JOIN categories c ON p.category_id = c.id\n            JOIN users u ON p.advertiser_id = u.id\n            WHERE p.id = $1\n        "

/-- The handler `exports.createPost`. Every `return` of the source is a
result here; an exception inside `try` leads to the `catch` response. -/
def createPost (env : Env σ) (req : Request) (w : World σ) : Response × World σ :=
  let advertiser_id := req.body.get "advertiser_id"
  let category_id := req.body.get "category_id"
  let type := req.body.get "type"
  let title := req.body.get "title"
  let description := req.body.get "description"
  let price := req.body.get "price"
  let old_price := req.body.get "old_price"
  let with_reservation := req.body.get "with_reservation"
  let reservation_time := req.body.get "reservation_time"
  let reservation_limit := req.body.get "reservation_limit"
  let social_link := req.body.get "social_link"
  let failed : Response := ⟨500, errorBody "Post creation failed"⟩
  match req.file with
  | none => (⟨400, errorBody "No file uploaded"⟩, w)
  | some file =>
  if !advertiser_id.truthy || !type.truthy || !title.truthy then
    (⟨400, errorBody "advertiser_id, type, and title are required"⟩, w)
  else if !([JsVal.str "reel", JsVal.str "post"].any fun t => t.strictEq type) then
    (⟨400, errorBody "type must be either \"reel\" or \"post\""⟩, w)
  else
  match poolQuery env sqlSelectAdvertiser [advertiser_id] w with
  | (Except.error _, w1) => (failed, w1)
  | (Except.ok advertiserRows, w1) =>
  if advertiserRows.length = 0 then (⟨404, errorBody "Advertiser not found"⟩, w1)
  else
  match req.user with
  | none => (⟨401, errorBody "Unauthorized"⟩, w1)
  | some caller =>
  let isAdmin := (caller.get "role").strictEq (JsVal.str "admin")
  if !isAdmin && !((JsVal.num advertiser_id.parseInt).strictEq (caller.get "id")) then
    (⟨403, errorBody "Forbidden: cannot create posts for another advertiser"⟩, w1)
  else
  match cloudinaryUpload env (file.get "path") w1 with
  | (Except.error _, w2) => (failed, w2)
  | (Except.ok mediaUpload, w2) =>
  let withReservation :=
    with_reservation.strictEq (JsVal.str "true") || with_reservation.strictEq (JsVal.bool true)
  let parsedReservationTime :=
    if reservation_time.truthy then newDate env reservation_time else JsVal.null
  let parsedReservationLimit :=
    if reservation_limit.truthy then JsVal.num reservation_limit.parseInt else JsVal.null
  if withReservation && (parsedReservationTime.truthy
      && parsedReservationTime.le (JsVal.date env.now)) then
    (⟨400, errorBody "Reservation time must be in the future"⟩, w2)
  else if withReservation && (parsedReservationLimit.truthy
      && parsedReservationLimit.le (JsVal.num (JsNum.fin 0))) then
    (⟨400, errorBody "Reservation limit must be greater than 0"⟩, w2)
  else
  match poolQuery env sqlInsertPost
      [advertiser_id, category_id, type, title, description, price, old_price,
        JsVal.bool withReservation, parsedReservationTime, parsedReservationLimit,
        social_link, mediaUpload.get "secure_url"] w2 with
  | (Except.error _, w3) => (failed, w3)
  | (Except.ok result, w3) =>
  let w4 := fsUnlink (file.get "path") w3
  match result with
  | [] => (failed, w4)
  | inserted :: _ =>
  match poolQuery env sqlCompletePost [inserted.get "id"] w4 with
  | (Except.error _, w5) => (failed, w5)
  | (Except.ok completePost, w5) =>
    (⟨201, Json.obj [("message", Json.val (JsVal.str "Post created successfully")),
        ("post", Json.ofFirst completePost)]⟩, w5)

/-- A destructuring default `{ key = d } = obj`: `d` replaces `undefined`. -/
def withDefault (v d : JsVal) : JsVal :=
  match v with
  | JsVal.undefined => d
  | other => other

/-- The filters of `getPosts`: conditions, parameters and `paramCount` after
the three `if` blocks that build the dynamic `WHERE` clause. -/
def buildFilters (category_id type with_reservation : JsVal) :
    List String × List JsVal × ℕ :=
  let s0 : List String × List JsVal × ℕ := ([], [], 0)
  let s1 :=
    if category_id.truthy then
      (s0.1 ++ ["p.category_id = $" ++ toString (s0.2.2 + 1)], s0.2.1 ++ [category_id], s0.2.2 + 1)
    else s0
  let s2 :=
    if type.truthy then
      (s1.1 ++ ["p.type = $" ++ toString (s1.2.2 + 1)], s1.2.1 ++ [type], s1.2.2 + 1)
    else s1
  let s3 :=
    if !(with_reservation.strictEq JsVal.undefined) then
      (s2.1 ++ ["p.with_reservation = $" ++ toString (s2.2.2 + 1)],
        s2.2.1 ++ [JsVal.bool (with_reservation.strictEq (JsVal.str "true"))], s2.2.2 + 1)
    else s2
  s3

/-- The `whereClause` of `getPosts`. -/
def whereClauseOf (whereConditions : List String) : String :=
  if whereConditions.length > 0 then "WHERE " ++ " AND ".intercalate whereConditions else ""

/-- Statement of `getPosts` that reads one page. -/
def sqlPosts (whereClause : String) (limitParam offsetParam : ℕ) : String :=
  "\n            SELECT \n                p.*,\n                c.name as category_name,\n                u.name as advertiser_name,\n                COUNT(CASE WHEN r.status = 'active' THEN 1 END) as reservation_count\n            FROM posts p\n            LEFT JOIN categories c ON p.category_id = c.id\n            JOIN users u ON p.advertiser_id = u.id\n            LEFT JOIN reservations r ON p.id = r.post_id AND r.status = 'active'\n            "
    ++ whereClause
    ++ "\n            GROUP BY p.id, c.name, u.name\n            ORDER BY p.created_at DESC\n            LIMIT $"
    ++ toString limitParam ++ " OFFSET $" ++ toString offsetParam ++ "\n        "

/-- Statement of `getPosts` that counts the matching posts. -/
def sqlCountPosts (whereClause : String) : String :=
  "\n            SELECT COUNT(DISTINCT p.id) as total\n            FROM posts p\n            LEFT JOIN categories c ON p.category_id = c.id\n            JOIN users u ON p.advertiser_id = u.id\n            "
    ++ whereClause ++ "\n        "

/-- The handler `exports.getPosts`. -/
def getPosts (env : Env σ) (req : Request) (w : World σ) : Response × World σ :=
  let category_id := req.query.get "category_id"
  let type := req.query.get "type"
  let with_reservation := req.query.get "with_reservation"
  let page := withDefault (req.query.get "page") (JsVal.num (JsNum.fin 1))
  let limit := withDefault (req.query.get "limit") (JsVal.num (JsNum.fin 10))
  let failed : Response := ⟨500, errorBody "Failed to retrieve posts"⟩
  let filters := buildFilters category_id type with_reservation
  let whereClause := whereClauseOf filters.1
  let offset := (page.sub (JsVal.num (JsNum.fin 1))).mul limit
  let limitParam := filters.2.2 + 1
  let offsetParam := filters.2.2 + 2
  let queryParams := filters.2.1 ++ [JsVal.num limit.parseInt, offset]
  match poolQuery env (sqlPosts whereClause limitParam offsetParam) queryParams w with
  | (Except.error _, w1) => (failed, w1)
  | (Except.ok postsRows, w1) =>
  match poolQuery env (sqlCountPosts whereClause) (queryParams.take (queryParams.length - 2)) w1 with
  | (Except.error _, w2) => (failed, w2)
  | (Except.ok [], w2) => (failed, w2)
  | (Except.ok (countRow :: _), w2) =>
    let total := JsVal.num (countRow.get "total").parseInt
    let totalPages := (total.div limit).ceil
    let current := JsVal.num page.parseInt
    (⟨200, Json.obj [
        ("posts", Json.arr (postsRows.map Json.ofRow)),
        ("pagination", Json.obj [
          ("current_page", Json.val current),
          ("total_pages", Json.val totalPages),
          ("total_posts", Json.val total),
          ("posts_per_page", Json.val (JsVal.num limit.parseInt)),
          ("has_next_page", Json.val (JsVal.bool (current.lt totalPages))),
          ("has_prev_page", Json.val (JsVal.bool (current.gt (JsVal.num (JsNum.fin 1)))))])]⟩, w2)

/-- Statement of `getPostDetails`. -/
def sqlPostDetails : String :=
  "\n            SELECT \n                p.*,\n                c.name as category_name,\n                u.name as advertiser_name,\n                u.email as advertiser_email,\n                COUNT(CASE WHEN r.status = 'active' THEN 1 END) as reservation_count\n            FROM posts p\n            LEFT JOIN categories c ON p.category_id = c.id\n            JOIN users u ON p.advertiser_id = u.id\n            LEFT JOIN reservations r ON p.id = r.post_id AND r.status = 'active'\n            WHERE p.id = $1\n            GROUP BY p.id, c.name, u.name, u.email\n        "

/-- The object assigned to `post.availability` in `getPostDetails`. -/
def availabilityOf (env : Env σ) (post : Row) : Json :=
  if (post.get "with_reservation").truthy then
    let availableSlots :=
      if (post.get "reservation_limit").truthy then
        (post.get "reservation_limit").sub (JsVal.num (post.get "reservation_count").parseInt)
      else JsVal.null
    Json.obj [
      ("accepts_reservations", Json.val (JsVal.bool true)),
      ("current_reservations", Json.val (JsVal.num (post.get "reservation_count").parseInt)),
      ("available_slots", Json.val availableSlots),
      ("is_available", Json.val (JsVal.bool
        (!(post.get "reservation_limit").truthy || availableSlots.gt (JsVal.num (JsNum.fin 0))))),
      ("is_expired", Json.val (JsVal.bool
        (if (post.get "reservation_time").truthy then
          (JsVal.date env.now).gt (newDate env (post.get "reservation_time"))
        else false)))]
  else
    Json.obj [("accepts_reservations", Json.val (JsVal.bool false))]

/-- The assignment `post.availability = a` followed by `res.json(post)`: the
body is the row with its `availability` property set, in place when the row
already has one and appended otherwise. -/
def postWithAvailability (post : Row) (a : Json) : Json :=
  if post.any (fun kv => kv.1 == "availability") then
    Json.obj (post.map fun kv => if kv.1 == "availability" then (kv.1, a) else (kv.1, Json.val kv.2))
  else
    Json.obj ((post.map fun kv => (kv.1, Json.val kv.2)) ++ [("availability", a)])

/-- The handler `exports.getPostDetails`. -/
def getPostDetails (env : Env σ) (req : Request) (w : World σ) : Response × World σ :=
  let id := req.params.get "id"
  match poolQuery env sqlPostDetails [id] w with
  | (Except.error _, w1) => (⟨500, errorBody "Failed to retrieve post details"⟩, w1)
  | (Except.ok [], w1) => (⟨404, errorBody "Post not found"⟩, w1)
  | (Except.ok (post :: _), w1) =>
    (⟨200, postWithAvailability post (availabilityOf env post)⟩, w1)

/-- Statement of `savePost` that checks the post exists. -/
def sqlSelectPost : String := "SELECT id FROM posts WHERE id = $1"

/-- Statement of `savePost` that looks for an earlier save. -/
def sqlSelectSaved : String :=
  "SELECT id FROM saved_posts WHERE client_id = $1 AND post_id = $2"

/-- Statement of `savePost` that stores the save. -/
def sqlInsertSaved : String :=
  "INSERT INTO saved_posts (client_id, post_id) VALUES ($1, $2) RETURNING *"

/-- The handler `exports.savePost`. -/
def savePost (env : Env σ) (req : Request) (w : World σ) : Response × World σ :=
  let client_id := req.body.get "client_id"
  let post_id := req.body.get "post_id"
  let failed : Response := ⟨500, errorBody "Failed to save post"⟩
  match poolQuery env sqlSelectPost [post_id] w with
  | (Except.error _, w1) => (failed, w1)
  | (Except.ok postRows, w1) =>
  if postRows.length = 0 then (⟨404, errorBody "Post not found"⟩, w1)
  else
  match poolQuery env sqlSelectSaved [client_id, post_id] w1 with
  | (Except.error _, w2) => (failed, w2)
  | (Except.ok existing, w2) =>
  if existing.length > 0 then (⟨409, errorBody "Post already saved"⟩, w2)
  else
  match poolQuery env sqlInsertSaved [client_id, post_id] w2 with
  | (Except.error _, w3) => (failed, w3)
  | (Except.ok result, w3) =>
    (⟨201, Json.obj [("message", Json.val (JsVal.str "Post saved successfully")),
        ("saved_post", Json.ofFirst result)]⟩, w3)

/-- Statement of `registerUser`. -/
def sqlInsertUser : String :=
  "INSERT INTO users (name, email, phone, password_hash) VALUES ($1, $2, $3, $4) RETURNING *"

/-- Statement of `registerAdvertiser`. -/
def sqlInsertAdvertiser : String :=
  "INSERT INTO users (name, email, phone, password_hash, role) VALUES ($1, $2, $3, $4, 'advertiser') RETURNING *"

/-- Statement of the login handlers. -/
def sqlSelectUserByEmail : String := "SELECT * FROM users WHERE email = $1"

/-- The body of a rejected registration. -/
def missingFieldsBody : Json :=
  Json.obj [("error", Json.val (JsVal.str "Missing or invalid required fields")),
    ("required_fields", Json.arr [Json.val (JsVal.str "name"), Json.val (JsVal.str "email"),
      Json.val (JsVal.str "phone"), Json.val (JsVal.str "password")])]

/-- The `catch` block of the registration handlers: a unique violation
(`23505`) is a conflict, anything else an internal error. -/
def registrationFailed (error : JsError) : Response :=
  if error.code.strictEq (JsVal.str "23505") then ⟨409, errorBody "Email already exists"⟩
  else ⟨500, errorBody "User registration failed"⟩

/-- The registration flow shared by `registerUser` and `registerAdvertiser`,
which differ in the statement only. -/
def registerWith (sql : String) (env : Env σ) (req : Request) (w : World σ) :
    Response × World σ :=
  let name := req.body.get "name"
  let email := req.body.get "email"
  let phone := req.body.get "phone"
  let password := req.body.get "password"
  if !name.truthy || !email.truthy || !phone.truthy || !password.truthy
      || !password.isString then
    (⟨400, missingFieldsBody⟩, w)
  else
  match bcryptHash env password w with
  | (Except.error e, w1) => (registrationFailed e, w1)
  | (Except.ok hashedPassword, w1) =>
  match poolQuery env sql [name, email, phone, JsVal.str hashedPassword] w1 with
  | (Except.error e, w2) => (registrationFailed e, w2)
  | (Except.ok rows, w2) => (⟨201, Json.ofFirst rows⟩, w2)

/-- The handler `exports.registerUser`. -/
def registerUser (env : Env σ) (req : Request) (w : World σ) : Response × World σ :=
  registerWith sqlInsertUser env req w

/-- The handler `exports.registerNormalUser`. -/
def registerNormalUser (env : Env σ) (req : Request) (w : World σ) : Response × World σ :=
  registerUser env req w

/-- The handler `exports.registerAdvertiser`. -/
def registerAdvertiser (env : Env σ) (req : Request) (w : World σ) : Response × World σ :=
  registerWith sqlInsertAdvertiser env req w

/-- The body `{ token }`. -/
def tokenBody (token : String) : Json :=
  Json.obj [("token", Json.val (JsVal.str token))]

/-- The response `res.status(401).json({ error: 'Invalid credentials' })`. -/
def invalidCredentials : Response := ⟨401, errorBody "Invalid credentials"⟩

/-- The response of the `catch` block of the login handlers. -/
def loginFailed : Response := ⟨500, errorBody "Login failed"⟩

/-- The handler `exports.loginUser`. -/
def loginUser (env : Env σ) (req : Request) (w : World σ) : Response × World σ :=
  let email := req.body.get "email"
  let password := req.body.get "password"
  match poolQuery env sqlSelectUserByEmail [email] w with
  | (Except.error _, w1) => (loginFailed, w1)
  | (Except.ok [], w1) => (invalidCredentials, w1)
  | (Except.ok (user :: _), w1) =>
  match bcryptCompare env password (user.get "password_hash") w1 with
  | (Except.error _, w2) => (loginFailed, w2)
  | (Except.ok false, w2) => (invalidCredentials, w2)
  | (Except.ok true, w2) =>
  match jwtSign env [("id", user.get "id"), ("role", user.get "role")] w2 with
  | (Except.error _, w3) => (loginFailed, w3)
  | (Except.ok token, w3) => (⟨200, tokenBody token⟩, w3)

/-- The handler `exports.loginAsUser`. -/
def loginAsUser (env : Env σ) (req : Request) (w : World σ) : Response × World σ :=
  let email := req.body.get "email"
  let password := req.body.get "password"
  match poolQuery env sqlSelectUserByEmail [email] w with
  | (Except.error _, w1) => (loginFailed, w1)
  | (Except.ok [], w1) => (invalidCredentials, w1)
  | (Except.ok (user :: _), w1) =>
  match bcryptCompare env password (user.get "password_hash") w1 with
  | (Except.error _, w2) => (loginFailed, w2)
  | (Except.ok false, w2) => (invalidCredentials, w2)
  | (Except.ok true, w2) =>
  if !((user.get "role").strictEq (JsVal.str "user")) then
    (⟨403, errorBody "Account is not a normal user"⟩, w2)
  else
  match jwtSign env [("id", user.get "id"), ("role", user.get "role")] w2 with
  | (Except.error _, w3) => (loginFailed, w3)
  | (Except.ok token, w3) => (⟨200, tokenBody token⟩, w3)

/-- The handler `exports.loginAsAdvertiser`. -/
def loginAsAdvertiser (env : Env σ) (req : Request) (w : World σ) : Response × World σ :=
  let email := req.body.get "email"
  let password := req.body.get "password"
  match poolQuery env sqlSelectUserByEmail [email] w with
  | (Except.error _, w1) => (loginFailed, w1)
  | (Except.ok [], w1) => (invalidCredentials, w1)
  | (Except.ok (user :: _), w1) =>
  match bcryptCompare env password (user.get "password_hash") w1 with
  | (Except.error _, w2) => (loginFailed, w2)
  | (Except.ok false, w2) => (invalidCredentials, w2)
  | (Except.ok true, w2) =>
  if !([JsVal.str "advertiser", JsVal.str "admin"].any fun r => r.strictEq (user.get "role")) then
    (⟨403, errorBody "Account is not an advertiser"⟩, w2)
  else
  match jwtSign env [("id", user.get "id"), ("role", user.get "role")] w2 with
  | (Except.error _, w3) => (loginFailed, w3)
  | (Except.ok token, w3) => (⟨200, tokenBody token⟩, w3)

/-! ## Vocabulary of the properties -/

/-- A field that is missing or empty: `undefined`, `null` or `""`. -/
def JsVal.missingOrEmpty (v : JsVal) : Prop :=
  v = JsVal.undefined ∨ v = JsVal.null ∨ v = JsVal.str ""

/-- The calls a handler run adds to the trace of the world it starts from. -/
def effectsOf (run : World σ → Response × World σ) (w : World σ) : List Effect :=
  (run w).2.trace.drop w.trace.length

/-- A call that inserts a post row. -/
def Effect.isPostInsert : Effect → Bool
  | Effect.query sql _ => sql == sqlInsertPost
  | _ => false

/-- The `pagination` object of a response. -/
def Response.pagination (r : Response) : Json := r.body.get "pagination"

/-- The `availability` object of a response. -/
def Response.availability (r : Response) : Json := r.body.get "availability"

/-- The `page` of a listing request, 1 when the query has none. -/
def Request.page (req : Request) : JsVal :=
  withDefault (req.query.get "page") (JsVal.num (JsNum.fin 1))

/-- The `limit` of a listing request, 10 when the query has none. -/
def Request.limit (req : Request) : JsVal :=
  withDefault (req.query.get "limit") (JsVal.num (JsNum.fin 10))

/-- The filters a `getPosts` request provides, each with its column and the
value bound to its placeholder, in the order category, type, reservation:
`category_id` and `type` count when they are non-empty (truthy),
`with_reservation` counts when it is defined and is bound as the boolean
`with_reservation === 'true'`. -/
def providedFilters (category_id type with_reservation : JsVal) : List (String × JsVal) :=
  (if category_id.truthy then [("p.category_id", category_id)] else [])
    ++ (if type.truthy then [("p.type", type)] else [])
    ++ (if with_reservation.strictEq JsVal.undefined then []
        else [("p.with_reservation", JsVal.bool (with_reservation.strictEq (JsVal.str "true")))])

/-- The provided filters of a request. -/
def Request.filters (req : Request) : List (String × JsVal) :=
  providedFilters (req.query.get "category_id") (req.query.get "type")
    (req.query.get "with_reservation")

/-- One condition per filter, the one at position `k` (counted from 1 after
the first `start` placeholders) comparing its column with placeholder `$k`. -/
def numbered (start : ℕ) : List (String × JsVal) → List String
  | [] => []
  | f :: fs => (f.1 ++ " = $" ++ toString (start + 1)) :: numbered (start + 1) fs

/-- The AND of the conditions of a list of filters; no clause for no filter. -/
def conjunction (fs : List (String × JsVal)) : String :=
  if fs = [] then "" else "WHERE " ++ " AND ".intercalate (numbered 0 fs)

/-- The page statement a request with filters `fs` is expected to issue: the
filter conditions, `LIMIT` and `OFFSET` on the next two placeholders, bound to
`parseInt(limit)` and `(page - 1) * limit`. -/
def postsStatement (fs : List (String × JsVal)) (page limit : JsVal) : Effect :=
  Effect.query (sqlPosts (conjunction fs) (fs.length + 1) (fs.length + 2))
    (fs.map Prod.snd
      ++ [JsVal.num limit.parseInt, (page.sub (JsVal.num (JsNum.fin 1))).mul limit])

/-- The count statement a request with filters `fs` is expected to issue: the
same clause with the filter values alone. -/
def countStatement (fs : List (String × JsVal)) : Effect :=
  Effect.query (sqlCountPosts (conjunction fs)) (fs.map Prod.snd)

/-- The number of filter parameters present in the query of a request,
whatever their value. -/
def presentCount (req : Request) : ℕ :=
  (if req.query.get "category_id" = JsVal.undefined then 0 else 1)
    + (if req.query.get "type" = JsVal.undefined then 0 else 1)
    + (if req.query.get "with_reservation" = JsVal.undefined then 0 else 1)

/-- The text of the page statement of a `getPosts` request. -/
def postsSql (req : Request) : String :=
  sqlPosts (conjunction req.filters) (req.filters.length + 1) (req.filters.length + 2)

/-- The parameters of the page statement of a `getPosts` request. -/
def postsParams (req : Request) : List JsVal :=
  req.filters.map Prod.snd
    ++ [JsVal.num req.limit.parseInt, (req.page.sub (JsVal.num (JsNum.fin 1))).mul req.limit]

/-- The text of the count statement of a `getPosts` request. -/
def countSql (req : Request) : String := sqlCountPosts (conjunction req.filters)

/-- The parameters of the count statement of a `getPosts` request. -/
def countParams (req : Request) : List JsVal := req.filters.map Prod.snd

/-- The natural number a `LIMIT` or `OFFSET` parameter denotes, if any. -/
def natOf : JsVal → Option ℕ
  | JsVal.num (JsNum.fin q) => if 0 ≤ q ∧ q.den = 1 then some q.num.toNat else none
  | _ => none

/-- The answer to a page statement of a store whose posts satisfying the
filter are `matching`, in the order of the statement: `LIMIT` and `OFFSET`
are the two last parameters, and the rows from position `OFFSET` on, at most
`LIMIT` of them, are returned; parameters that denote no natural number are
refused. -/
def pageRows (matching : List Row) (params : List JsVal) : Except JsError (List Row) :=
  match params.reverse with
  | offset :: limit :: _ =>
    match natOf limit, natOf offset with
    | some l, some o => Except.ok ((matching.drop o).take l)
    | _, _ => Except.error ⟨JsVal.str "22P02", "invalid input syntax for type bigint"⟩
  | _ => Except.error ⟨JsVal.str "08P01", "bind message supplies the wrong number of parameters"⟩

deriving instance DecidableEq for Except

/-! ## Concrete stores -/

/-- A store that replays a script: the n-th statement is answered by the
n-th entry, whatever the statement; past the end of the script it throws. -/
def scriptedQuery (script : List (Except JsError (List Row))) (_sql : String)
    (_params : List JsVal) : Except JsError (List Row) × List (Except JsError (List Row)) :=
  match script with
  | [] => (Except.error ⟨JsVal.undefined, "connection terminated"⟩, [])
  | answer :: rest => (answer, rest)

/-- Collaborators around a scripted store: the uploader returns a fixed URL,
the hasher prefixes the password, the signer renders nothing of the payload,
the clock reads 1000 and understands no date text. -/
def scriptedEnv : Env (List (Except JsError (List Row))) where
  query := scriptedQuery
  upload := fun _ => Except.ok [("secure_url", JsVal.str "https://media.example/1")]
  hashPassword := fun s => "hashed:" ++ s
  checkPassword := fun s h => h == "hashed:" ++ s
  sign := fun _ => Except.ok "token"
  now := JsNum.fin 1000
  parseDate := fun _ => JsNum.nan

/-- Modelled from the spec: the `users` table, whose schema is not part of the
sources. "email (unique)", "email uniqueness enforced at the store",
"unique-constraint violation mapped to a 409-equivalent": an insert whose
email equals that of a stored row is refused with code `23505` and leaves the
table as it was; otherwise the row is appended with the next id and the role
the statement gives (`'user'` by default). The lookup by email returns the
stored rows with that email. Emails are compared as the values supplied. -/
def usersQuery (table : List Row) (sql : String) (params : List JsVal) :
    Except JsError (List Row) × List Row :=
  if sql = sqlInsertUser ∨ sql = sqlInsertAdvertiser then
    match params with
    | [name, email, phone, password_hash] =>
      if table.any (fun r => r.get "email" == email) then
        (Except.error ⟨JsVal.str "23505", "duplicate key value violates unique constraint"⟩, table)
      else
        let row : Row := [("id", JsVal.num (JsNum.fin (table.length + 1))), ("name", name),
          ("email", email), ("phone", phone), ("password_hash", password_hash),
          ("role", JsVal.str (if sql = sqlInsertAdvertiser then "advertiser" else "user"))]
        (Except.ok [row], table ++ [row])
    | _ => (Except.error ⟨JsVal.str "08P01", "bind message supplies the wrong number of parameters"⟩, table)
  else if sql = sqlSelectUserByEmail then
    match params with
    | [email] => (Except.ok (table.filter fun r => r.get "email" == email), table)
    | _ => (Except.error ⟨JsVal.str "08P01", "bind message supplies the wrong number of parameters"⟩, table)
  else (Except.error ⟨JsVal.str "42601", "statement outside the users table"⟩, table)

/-- Collaborators around the `users` table, for any hasher and signer. -/
def usersEnv (hashPassword : String → String) (checkPassword : String → String → Bool)
    (sign : Row → Except JsError String) : Env (List Row) where
  query := usersQuery
  upload := fun _ => Except.error ⟨JsVal.undefined, "no uploader"⟩
  hashPassword := hashPassword
  checkPassword := checkPassword
  sign := sign
  now := JsNum.fin 1000
  parseDate := fun _ => JsNum.nan

/-- The `users` environment with the hasher and signer of `scriptedEnv`. -/
def plainUsersEnv : Env (List Row) :=
  usersEnv (fun s => "hashed:" ++ s) (fun s h => h == "hashed:" ++ s)
    (fun _ => Except.ok "token")

/-- Input of the counterexample to C1: a found post that accepts reservations,
with `reservation_limit` 0 and no active reservation. -/
def zeroLimitPost : Row :=
  [("id", JsVal.num (JsNum.fin 1)), ("with_reservation", JsVal.bool true),
    ("reservation_limit", JsVal.num (JsNum.fin 0)), ("reservation_count", JsVal.str "0")]

/-- Request for the details of post 1. -/
def detailsRequest : Request :=
  { body := [], query := [], params := [("id", JsVal.str "1")], file := none, user := none }

/-- Input of the witness for C1: limit 5 with 5 active reservations. -/
def fullPost : Row :=
  [("id", JsVal.num (JsNum.fin 1)), ("with_reservation", JsVal.bool true),
    ("reservation_limit", JsVal.num (JsNum.fin 5)), ("reservation_count", JsVal.str "5")]

/-- Listing request for page 1 with page size 3. -/
def listRequest : Request :=
  { body := [], query := [("page", JsVal.str "1"), ("limit", JsVal.str "3")],
    params := [("advertiser_id", JsVal.str "7"), ("client_id", JsVal.str "9")],
    file := none, user := none }

/-- A store that answers the page with no rows and the count with 7. -/
def sevenPostsWorld : World (List (Except JsError (List Row))) :=
  ⟨[Except.ok [], Except.ok [[("total", JsVal.str "7")]]], []⟩

/-- A `createPost` request without a file. -/
def noFileRequest : Request :=
  { body := [("advertiser_id", JsVal.str "7"), ("type", JsVal.str "post"),
      ("title", JsVal.str "Table for two")],
    query := [], params := [], file := none,
    user := some [("id", JsVal.num (JsNum.fin 7)), ("role", JsVal.str "advertiser")] }

/-- A well-formed `createPost` request of advertiser 7 for themselves. -/
def ownPostRequest : Request :=
  { body := [("advertiser_id", JsVal.str "7"), ("type", JsVal.str "post"),
      ("title", JsVal.str "Table for two")],
    query := [], params := [], file := some [("path", JsVal.str "/tmp/upload-1")],
    user := some [("id", JsVal.num (JsNum.fin 7)), ("role", JsVal.str "advertiser")] }

/-- The same request sent without credentials. -/
def anonymousPostRequest : Request :=
  { ownPostRequest with user := none }

/-- The same request sent by advertiser 8. -/
def foreignPostRequest : Request :=
  { ownPostRequest with
    user := some [("id", JsVal.num (JsNum.fin 8)), ("role", JsVal.str "advertiser")] }

/-- The stored row of advertiser 7. -/
def advertiserSeven : Row :=
  [("id", JsVal.num (JsNum.fin 7)), ("role", JsVal.str "advertiser")]

/-- Failing input of C4: advertiser 7 creates a post with reservations
enabled and the form value `"0"` as `reservation_limit`. -/
def zeroLimitRequest : Request :=
  { body := [("advertiser_id", JsVal.str "7"), ("type", JsVal.str "post"),
      ("title", JsVal.str "Table for two"), ("with_reservation", JsVal.str "true"),
      ("reservation_limit", JsVal.str "0")],
    query := [], params := [], file := some [("path", JsVal.str "/tmp/upload-1")],
    user := some [("id", JsVal.num (JsNum.fin 7)), ("role", JsVal.str "advertiser")] }

/-- A store in which the looked-up account is `account`, the insert returns a
row with id 1 and the read-back returns that row. -/
def acceptingWorld (account : Row) : World (List (Except JsError (List Row))) :=
  ⟨[Except.ok [account], Except.ok [[("id", JsVal.num (JsNum.fin 1))]],
    Except.ok [[("id", JsVal.num (JsNum.fin 1))]]], []⟩

/-- The stored row of account 7 when it is a normal user. -/
def normalUserSeven : Row :=
  [("id", JsVal.num (JsNum.fin 7)), ("role", JsVal.str "user")]

/-- Failing input of C6: an admin creates a post for account 7. -/
def adminForUserRequest : Request :=
  { ownPostRequest with
    user := some [("id", JsVal.num (JsNum.fin 1)), ("role", JsVal.str "admin")] }

/-- Failing input of C6: account 7, a normal user, creates a post for itself. -/
def normalUserPostRequest : Request :=
  { ownPostRequest with
    user := some [("id", JsVal.num (JsNum.fin 7)), ("role", JsVal.str "user")] }

/-- The stored account of Alice, a normal user whose password is `secret`. -/
def aliceRow : Row :=
  [("id", JsVal.num (JsNum.fin 1)), ("name", JsVal.str "Alice"),
    ("email", JsVal.str "alice@example.com"), ("phone", JsVal.str "555-0100"),
    ("password_hash", JsVal.str "hashed:secret"), ("role", JsVal.str "user")]

/-- A registration whose password is a number. -/
def numericPasswordRequest : Request :=
  { body := [("name", JsVal.str "Bob"), ("email", JsVal.str "bob@example.com"),
      ("phone", JsVal.str "555-0101"), ("password", JsVal.num (JsNum.fin 1234))],
    query := [], params := [], file := none, user := none }

/-- A complete registration under Alice's email. -/
def duplicateEmailRequest : Request :=
  { body := [("name", JsVal.str "Mallory"), ("email", JsVal.str "alice@example.com"),
      ("phone", JsVal.str "555-0102"), ("password", JsVal.str "hunter2")],
    query := [], params := [], file := none, user := none }

/-- A registration under Alice's email that has no `name`. -/
def duplicateEmailNoNameRequest : Request :=
  { body := [("email", JsVal.str "alice@example.com"),
      ("phone", JsVal.str "555-0102"), ("password", JsVal.str "hunter2")],
    query := [], params := [], file := none, user := none }

/-- A login with Alice's email and no password. -/
def missingPasswordLogin : Request :=
  { body := [("email", JsVal.str "alice@example.com")],
    query := [], params := [], file := none, user := none }

/-- A login with Alice's email and a wrong password. -/
def wrongPasswordLogin : Request :=
  { body := [("email", JsVal.str "alice@example.com"), ("password", JsVal.str "guess")],
    query := [], params := [], file := none, user := none }

/-- A login with Alice's email and her password. -/
def validLogin : Request :=
  { body := [("email", JsVal.str "alice@example.com"), ("password", JsVal.str "secret")],
    query := [], params := [], file := none, user := none }

/-- A listing request whose `category_id` is present and empty
(`?category_id=`). -/
def emptyCategoryRequest : Request :=
  { body := [], query := [("category_id", JsVal.str "")], params := [],
    file := none, user := none }

/-- A listing request filtered by category and reservation flag, page 2. -/
def filteredRequest : Request :=
  { body := [], query := [("category_id", JsVal.str "3"),
      ("with_reservation", JsVal.str "false"), ("page", JsVal.str "2")],
    params := [], file := none, user := none }

/-- Seven posts, newest first. -/
def sevenRows : List Row :=
  [[("id", JsVal.num (JsNum.fin 7))], [("id", JsVal.num (JsNum.fin 6))],
    [("id", JsVal.num (JsNum.fin 5))], [("id", JsVal.num (JsNum.fin 4))],
    [("id", JsVal.num (JsNum.fin 3))], [("id", JsVal.num (JsNum.fin 2))],
    [("id", JsVal.num (JsNum.fin 1))]]

/-- Listing request for page 2 with page size 3. -/
def pageTwoRequest : Request :=
  { body := [], query := [("page", JsVal.str "2"), ("limit", JsVal.str "3")],
    params := [], file := none, user := none }

/-- A store that answers the page statement with posts 4, 3, 2 (the second
page of three of `sevenRows`) and the count statement with 7. -/
def pageTwoWorld : World (List (Except JsError (List Row))) :=
  ⟨[Except.ok [[("id", JsVal.num (JsNum.fin 4))], [("id", JsVal.num (JsNum.fin 3))],
      [("id", JsVal.num (JsNum.fin 2))]],
    Except.ok [[("total", JsVal.str "7")]]], []⟩

/-- A row of `saved_posts`. -/
structure SavedPost where
  id : ℤ
  client_id : ℤ
  post_id : ℤ
  saved_at : JsNum
  deriving DecidableEq, Repr

/-- Modelled from the spec: the part of the store `savePost` reads and
writes, whose schema is not part of the sources: the ids of the stored posts
and the `saved_posts` table ("join of client User and Post with a saved_at
timestamp"). -/
structure SavedDb where
  posts : List ℤ
  saved : List SavedPost
  deriving DecidableEq, Repr

/-- The (client_id, post_id) pairs of the saved posts, in order. -/
def SavedDb.pairs (db : SavedDb) : List (ℤ × ℤ) :=
  db.saved.map fun r => (r.client_id, r.post_id)

/-- A saved post as a result row of `RETURNING *`. -/
def SavedPost.toRow (r : SavedPost) : Row :=
  [("id", JsVal.num (JsNum.fin r.id)), ("client_id", JsVal.num (JsNum.fin r.client_id)),
    ("post_id", JsVal.num (JsNum.fin r.post_id)), ("saved_at", JsVal.date r.saved_at)]

/-- The error of a statement bound to the wrong number of parameters. -/
def wrongArity : JsError :=
  ⟨JsVal.str "08P01", "bind message supplies the wrong number of parameters"⟩

/-- Modelled from the spec: the answers of the store to the three statements
of `savePost`. `key` is the store's reading of an id parameter: an id, NULL,
or a refusal of the value. The post lookup returns the post with that id, if
stored; the saved lookup returns the saved posts with that client and post; a
comparison with NULL matches nothing. The insert appends a row with the next
id and the current time and returns it ("else inserts and returns the new
saved-post row"); a NULL id is refused. The table carries no uniqueness
constraint of its own here, so that what keeps it free of duplicates is the
handler. Lookups leave the store as it is. -/
def savedQuery (key : JsVal → Except JsError (Option ℤ)) (now : JsNum) (db : SavedDb)
    (sql : String) (params : List JsVal) : Except JsError (List Row) × SavedDb :=
  if sql = sqlSelectPost then
    match params with
    | [post_id] =>
      match key post_id with
      | Except.error e => (Except.error e, db)
      | Except.ok none => (Except.ok [], db)
      | Except.ok (some p) =>
        (Except.ok (if p ∈ db.posts then [[("id", JsVal.num (JsNum.fin p))]] else []), db)
    | _ => (Except.error wrongArity, db)
  else if sql = sqlSelectSaved then
    match params with
    | [client_id, post_id] =>
      match key client_id, key post_id with
      | Except.error e, _ => (Except.error e, db)
      | _, Except.error e => (Except.error e, db)
      | Except.ok (some c), Except.ok (some p) =>
        (Except.ok ((db.saved.filter fun r => r.client_id = c ∧ r.post_id = p).map
          fun r => [("id", JsVal.num (JsNum.fin r.id))]), db)
      | _, _ => (Except.ok [], db)
    | _ => (Except.error wrongArity, db)
  else if sql = sqlInsertSaved then
    match params with
    | [client_id, post_id] =>
      match key client_id, key post_id with
      | Except.error e, _ => (Except.error e, db)
      | _, Except.error e => (Except.error e, db)
      | Except.ok (some c), Except.ok (some p) =>
        (Except.ok [SavedPost.toRow ⟨db.saved.length + 1, c, p, now⟩],
          { db with saved := db.saved ++ [⟨db.saved.length + 1, c, p, now⟩] })
      | _, _ => (Except.error ⟨JsVal.str "23502", "null value violates not-null constraint"⟩, db)
    | _ => (Except.error wrongArity, db)
  else (Except.error ⟨JsVal.str "42601", "statement outside the saved posts"⟩, db)

/-- Collaborators around the saved-posts store, for any reading of ids; the
clock reads 1000, the other collaborators are not used by `savePost`. -/
def savedEnv (key : JsVal → Except JsError (Option ℤ)) : Env SavedDb where
  query := savedQuery key (JsNum.fin 1000)
  upload := fun _ => Except.error ⟨JsVal.undefined, "no uploader"⟩
  hashPassword := fun s => s
  checkPassword := fun _ _ => false
  sign := fun _ => Except.error ⟨JsVal.undefined, "no signer"⟩
  now := JsNum.fin 1000
  parseDate := fun _ => JsNum.nan

/-- A sequence of `savePost` calls, each starting from the world the previous
one left. -/
def savePostAll (env : Env σ) (reqs : List Request) (w : World σ) : World σ :=
  reqs.foldl (fun acc req => (savePost env req acc).2) w

/-- Blank characters of the store's integer syntax. -/
def isPgSpace (c : Char) : Bool :=
  [9, 10, 11, 12, 13, 32].contains c.toNat

/-- A reading of id parameters as 32-bit integers: `undefined` and `null` are
NULL, a number is itself when it is an integer in range, a string is read as
blanks, an optional sign, decimal digits and blanks; any other value is
refused. -/
def pgInteger : JsVal → Except JsError (Option ℤ)
  | JsVal.undefined => Except.ok none
  | JsVal.null => Except.ok none
  | JsVal.num (JsNum.fin q) =>
    if q.den = 1 ∧ -2147483648 ≤ q.num ∧ q.num ≤ 2147483647 then Except.ok (some q.num)
    else Except.error ⟨JsVal.str "22P02", "invalid input syntax for type integer"⟩
  | JsVal.str s =>
    let signed := takeSign ((s.toList.dropWhile isPgSpace).reverse.dropWhile isPgSpace).reverse
    match wholeDigits 10 signed.2 with
    | JsNum.fin q =>
      if (if signed.1 then q.num ≤ 2147483648 else q.num ≤ 2147483647) then
        Except.ok (some (if signed.1 then -q.num else q.num))
      else Except.error ⟨JsVal.str "22003", "value out of range for type integer"⟩
    | _ => Except.error ⟨JsVal.str "22P02", "invalid input syntax for type integer"⟩
  | _ => Except.error ⟨JsVal.str "22P02", "invalid input syntax for type integer"⟩

/-- A store with post 5 and nothing saved. -/
def freshSavedDb : SavedDb := ⟨[5], []⟩

/-- A store with post 5, already saved by client 9. -/
def savedOnceDb : SavedDb := ⟨[5], [⟨1, 9, 5, JsNum.fin 0⟩]⟩

/-- Client 9 saves post 5. -/
def saveRequest : Request :=
  { body := [("client_id", JsVal.num (JsNum.fin 9)), ("post_id", JsVal.str "5")],
    query := [], params := [], file := none, user := none }

/-- Client 9 saves post 6, which is not stored. -/
def saveMissingRequest : Request :=
  { body := [("client_id", JsVal.num (JsNum.fin 9)), ("post_id", JsVal.str "6")],
    query := [], params := [], file := none, user := none }

/-! ## Lemmas on values -/

theorem JsVal.strictEq_eq {a b : JsVal} (h : a.strictEq b = true) : a = b := by
  cases a <;> cases b <;> simp [JsVal.strictEq] at h ⊢
  · exact h
  · rename_i x y
    cases x <;> cases y <;> simp [JsNum.strictEq] at h ⊢
    exact h
  · exact h

theorem JsVal.parseInt_cases (v : JsVal) :
    v.parseInt = JsNum.nan ∨ ∃ q : ℚ, v.parseInt = JsNum.fin q := by
  cases v with
  | str s =>
    simp only [JsVal.parseInt, parseIntStr]
    split
    · exact Or.inl rfl
    · exact Or.inr ⟨_, rfl⟩
  | num n =>
    cases n with
    | fin q =>
      simp only [JsVal.parseInt, JsNum.parseIntOf]
      split
      · exact Or.inr ⟨_, rfl⟩
      · split
        · exact Or.inr ⟨_, rfl⟩
        · exact Or.inr ⟨_, rfl⟩
    | _ => exact Or.inl rfl
  | _ => exact Or.inl rfl

theorem JsVal.toNumber_num (n : JsNum) : (JsVal.num n).toNumber = n := rfl

theorem JsVal.missingOrEmpty_truthy {v : JsVal} (h : v.missingOrEmpty) : v.truthy = false := by
  rcases h with h | h | h <;> subst h <;> simp [JsVal.truthy]

/-! ## `getPostDetails` -/

theorem postWithAvailability_get (post : Row) (a : Json) :
    (postWithAvailability post a).get "availability" = a := by
  unfold postWithAvailability
  split
  · rename_i h
    simp only [Json.get]
    induction post with
    | nil => simp at h
    | cons kv rest ih =>
      obtain ⟨k, v⟩ := kv
      by_cases hk : k = "availability"
      · subst hk
        simp [List.lookup]
      · have hk2 : ("availability" == k) = false := by
          simpa using fun h2 : "availability" = k => hk h2.symm
        have hr : rest.any (fun kv => kv.1 == "availability") = true := by
          simpa [hk] using h
        simp only [List.map_cons]
        rw [if_neg (by simp [hk])]
        simp only [List.lookup, hk2]
        exact ih hr
  · rename_i h
    simp only [Json.get]
    induction post with
    | nil => simp [List.lookup]
    | cons kv rest ih =>
      obtain ⟨k, v⟩ := kv
      have hk : ¬ k = "availability" := by
        intro h2; apply h; simp [h2]
      have hk2 : ("availability" == k) = false := by
        simpa using fun h2 : "availability" = k => hk h2.symm
      have hr : ¬ rest.any (fun kv => kv.1 == "availability") = true := by
        intro h2; apply h; simp only [List.any_cons, h2, Bool.or_true]
      simp only [List.map_cons, List.cons_append, List.lookup, hk2]
      exact ih hr

theorem getPostDetails_found (env : Env σ) (req : Request) (w : World σ)
    (post : Row) (rest : List Row)
    (hfound : (poolQuery env sqlPostDetails [req.params.get "id"] w).1
      = Except.ok (post :: rest)) :
    (getPostDetails env req w).1
      = ⟨200, postWithAvailability post (availabilityOf env post)⟩ := by
  have hpair : poolQuery env sqlPostDetails [req.params.get "id"] w
      = (Except.ok (post :: rest), (poolQuery env sqlPostDetails [req.params.get "id"] w).2) :=
    Prod.ext hfound rfl
  unfold getPostDetails
  simp only []
  rw [hpair]

/-- C1 (as amended). In `getPostDetails`, for a found post with
`with_reservation` true and `c` active reservations: a `reservation_limit` set
to a non-zero `L` gives `available_slots = L - c` and `is_available` true
exactly when `L - c > 0`; a `null` limit gives `available_slots = null` and
`is_available = true` for every `c`. -/
theorem getPostDetails_availability (env : Env σ) (req : Request) (w : World σ)
    (post : Row) (rest : List Row) (c : ℕ)
    (hfound : (poolQuery env sqlPostDetails [req.params.get "id"] w).1
      = Except.ok (post :: rest))
    (hres : post.get "with_reservation" = JsVal.bool true)
    (hcount : (post.get "reservation_count").parseInt = JsNum.fin c) :
    (getPostDetails env req w).1.status = 200 ∧
    (∀ L : ℤ, L ≠ 0 → post.get "reservation_limit" = JsVal.num (JsNum.fin L) →
      (getPostDetails env req w).1.availability.get "available_slots"
          = Json.val (JsVal.num (JsNum.fin ((L - c : ℤ) : ℚ))) ∧
      (getPostDetails env req w).1.availability.get "is_available"
          = Json.val (JsVal.bool (decide (0 < L - c)))) ∧
    (post.get "reservation_limit" = JsVal.null →
      (getPostDetails env req w).1.availability.get "available_slots" = Json.val JsVal.null ∧
      (getPostDetails env req w).1.availability.get "is_available"
          = Json.val (JsVal.bool true)) := by
  rw [getPostDetails_found env req w post rest hfound]
  simp only [Response.availability, postWithAvailability_get]
  refine ⟨trivial, ?_, ?_⟩
  · intro L hL hlimit
    have hLq : (L : ℚ) ≠ 0 := by exact_mod_cast hL
    have hlt : ((0 : ℚ) < (L : ℚ) - (c : ℚ)) ↔ (0 < L - (c : ℤ)) := by
      constructor <;> intro h
      · exact_mod_cast h
      · exact_mod_cast h
    simp [availabilityOf, hres, hlimit, hcount, JsVal.truthy, JsNum.truthy, hLq, Json.get,
      List.lookup, JsVal.sub, JsVal.toNumber, JsNum.sub, JsVal.gt, JsNum.lt, hlt]
  · intro hlimit
    simp [availabilityOf, hres, hlimit, JsVal.truthy, Json.get, List.lookup]

/-- Witness for C1: limit 5 with 5 active reservations gives
`available_slots = 0` and `is_available = false`. -/
theorem getPostDetails_availability_witness :
    (getPostDetails scriptedEnv detailsRequest ⟨[Except.ok [fullPost]], []⟩).1.availability.get
        "available_slots" = Json.val (JsVal.num (JsNum.fin 0)) ∧
    (getPostDetails scriptedEnv detailsRequest ⟨[Except.ok [fullPost]], []⟩).1.availability.get
        "is_available" = Json.val (JsVal.bool false) := by
  have h := (getPostDetails_availability scriptedEnv detailsRequest
    ⟨[Except.ok [fullPost]], []⟩ fullPost [] 5 rfl rfl (by decide!)).2.1 5 (by decide) rfl
  simpa using h

/-- Counterexample to C1 as stated: with `reservation_limit` set to 0 and no
active reservation the claim requires `available_slots = 0 - 0` and
`is_available = false`; the handler answers `null` and `true`. -/
theorem getPostDetails_availability_counterexample :
    ((getPostDetails scriptedEnv detailsRequest ⟨[Except.ok [zeroLimitPost]], []⟩).1.availability.get
        "available_slots" = Json.val JsVal.null ∧
     (getPostDetails scriptedEnv detailsRequest ⟨[Except.ok [zeroLimitPost]], []⟩).1.availability.get
        "is_available" = Json.val (JsVal.bool true)) ∧
    ¬ ((getPostDetails scriptedEnv detailsRequest ⟨[Except.ok [zeroLimitPost]], []⟩).1.availability.get
        "available_slots" = Json.val (JsVal.num (JsNum.fin (0 - 0))) ∧
      (getPostDetails scriptedEnv detailsRequest ⟨[Except.ok [zeroLimitPost]], []⟩).1.availability.get
        "is_available" = Json.val (JsVal.bool (decide ((0 : ℤ) < 0 - 0)))) := by
  decide!

/-! ## Pagination -/

theorem ceil_div_isLeast (T L : ℕ) (hL : 1 ≤ L) :
    IsLeast {m : ℕ | T ≤ m * L} ⌈(T : ℚ) / L⌉.toNat ∧
      ((⌈(T : ℚ) / L⌉.toNat : ℕ) : ℤ) = ⌈(T : ℚ) / L⌉ := by
  have hLq : (0 : ℚ) < (L : ℚ) := by exact_mod_cast hL
  have hnonneg : 0 ≤ ⌈(T : ℚ) / L⌉ := Int.ceil_nonneg (by positivity)
  have hcast : ((⌈(T : ℚ) / L⌉.toNat : ℕ) : ℤ) = ⌈(T : ℚ) / L⌉ := Int.toNat_of_nonneg hnonneg
  refine ⟨⟨?_, ?_⟩, hcast⟩
  · show T ≤ ⌈(T : ℚ) / L⌉.toNat * L
    have h1 : (T : ℚ) / L ≤ ((⌈(T : ℚ) / L⌉ : ℤ) : ℚ) := Int.le_ceil _
    have h2 : (T : ℚ) ≤ ((⌈(T : ℚ) / L⌉ : ℤ) : ℚ) * L := (div_le_iff₀ hLq).mp h1
    have h3 : ((⌈(T : ℚ) / L⌉ : ℤ) : ℚ) = ((⌈(T : ℚ) / L⌉.toNat : ℕ) : ℚ) := by
      rw [← hcast]; push_cast; rw [hcast]
    rw [h3] at h2
    exact_mod_cast h2
  · intro m hm
    have hm' : T ≤ m * L := hm
    have h1 : (T : ℚ) / L ≤ ((m : ℤ) : ℚ) := by
      rw [div_le_iff₀ hLq]
      exact_mod_cast hm'
    have h2 : ⌈(T : ℚ) / L⌉ ≤ (m : ℤ) := Int.ceil_le.mpr h1
    exact Int.toNat_le.mpr h2

theorem totalPages_value (limit : JsVal) (T L : ℕ) (hL : 1 ≤ L)
    (hlimit : limit.toNumber = JsNum.fin L) :
    ((JsVal.num (JsNum.fin T)).div limit).ceil
      = JsVal.num (JsNum.fin ((⌈(T : ℚ) / L⌉.toNat : ℕ) : ℚ)) := by
  have hLq : (L : ℚ) ≠ 0 := by
    have : (0 : ℚ) < (L : ℚ) := by exact_mod_cast hL
    exact ne_of_gt this
  have hcast := (ceil_div_isLeast T L hL).2
  have hq : ((⌈(T : ℚ) / L⌉ : ℤ) : ℚ) = ((⌈(T : ℚ) / L⌉.toNat : ℕ) : ℚ) := by
    rw [← hcast]; push_cast; rw [hcast]
  unfold JsVal.ceil JsVal.div
  rw [hlimit]
  simp only [JsVal.toNumber, JsNum.div, hLq, if_false, JsNum.ceil]
  rw [hq]

theorem getPosts_ok_inv (env : Env σ) (req : Request) (w : World σ)
    (hok : (getPosts env req w).1.status = 200) :
    ∃ countRow : Row,
      (getPosts env req w).1.pagination.get "total_posts"
        = Json.val (JsVal.num (countRow.get "total").parseInt) ∧
      (getPosts env req w).1.pagination.get "total_pages"
        = Json.val (((JsVal.num (countRow.get "total").parseInt).div
            (withDefault (req.query.get "limit") (JsVal.num (JsNum.fin 10)))).ceil) ∧
      (getPosts env req w).1.pagination.get "current_page"
        = Json.val (JsVal.num
            (withDefault (req.query.get "page") (JsVal.num (JsNum.fin 1))).parseInt) ∧
      (getPosts env req w).1.pagination.get "has_next_page"
        = Json.val (JsVal.bool ((JsVal.num
            (withDefault (req.query.get "page") (JsVal.num (JsNum.fin 1))).parseInt).lt
            (((JsVal.num (countRow.get "total").parseInt).div
              (withDefault (req.query.get "limit") (JsVal.num (JsNum.fin 10)))).ceil))) := by
  revert hok
  unfold getPosts
  simp only []
  split
  · intro h; simp at h
  · split
    · intro h; simp at h
    · intro h; simp at h
    · intro _
      rename_i countRow _ _ _ _
      exact ⟨countRow, by simp [Response.pagination, Json.get, List.lookup],
        by simp [Response.pagination, Json.get, List.lookup],
        by simp [Response.pagination, Json.get, List.lookup],
        by simp [Response.pagination, Json.get, List.lookup]⟩

/-- C3. For every `getPosts` request that succeeds, `has_next_page` is a
boolean, true if and only if `current_page` is a number strictly below
`total_pages` (which is a finite number or `Infinity`). -/
theorem has_next_page_iff (env : Env σ) (req : Request) (w : World σ)
    (hok : (getPosts env req w).1.status = 200) :
    ∃ b : Bool,
      (getPosts env req w).1.pagination.get "has_next_page" = Json.val (JsVal.bool b) ∧
      (b = true ↔
        ∃ p : ℚ,
          (getPosts env req w).1.pagination.get "current_page"
            = Json.val (JsVal.num (JsNum.fin p)) ∧
          ((∃ t : ℚ, (getPosts env req w).1.pagination.get "total_pages"
              = Json.val (JsVal.num (JsNum.fin t)) ∧ p < t) ∨
            (getPosts env req w).1.pagination.get "total_pages"
              = Json.val (JsVal.num JsNum.posInf))) := by
  obtain ⟨countRow, _, h2, h3, h4⟩ := getPosts_ok_inv env req w hok
  rw [h2, h3, h4]
  refine ⟨_, rfl, ?_⟩
  unfold JsVal.ceil
  simp only [JsVal.lt, JsVal.toNumber_num]
  generalize (((JsVal.num (countRow.get "total").parseInt).div
    (withDefault (req.query.get "limit") (JsVal.num (JsNum.fin 10)))).toNumber).ceil = x
  rcases JsVal.parseInt_cases (withDefault (req.query.get "page") (JsVal.num (JsNum.fin 1)))
    with ha | ⟨p, ha⟩
  · rw [ha]
    cases x <;> simp [JsNum.lt]
  · rw [ha]
    cases x <;> simp [JsNum.lt]

/-- Witness for C3: page 1 of 3 reports a next page, and its `current_page`
is below its `total_pages`. -/
theorem has_next_page_iff_witness :
    (getPosts scriptedEnv listRequest sevenPostsWorld).1.pagination.get "has_next_page"
      = Json.val (JsVal.bool true) ∧
    ∃ p : ℚ,
      (getPosts scriptedEnv listRequest sevenPostsWorld).1.pagination.get "current_page"
        = Json.val (JsVal.num (JsNum.fin p)) ∧
      ((∃ t : ℚ, (getPosts scriptedEnv listRequest sevenPostsWorld).1.pagination.get "total_pages"
          = Json.val (JsVal.num (JsNum.fin t)) ∧ p < t) ∨
        (getPosts scriptedEnv listRequest sevenPostsWorld).1.pagination.get "total_pages"
          = Json.val (JsVal.num JsNum.posInf)) := by
  obtain ⟨b, hb, hiff⟩ := has_next_page_iff scriptedEnv listRequest sevenPostsWorld (by decide!)
  have hnext : (getPosts scriptedEnv listRequest sevenPostsWorld).1.pagination.get "has_next_page"
      = Json.val (JsVal.bool true) := by decide!
  have hbt : b = true := by
    rw [hnext] at hb
    exact (JsVal.bool.inj (Json.val.inj hb)).symm
  exact ⟨hnext, hiff.mp hbt⟩

/-! ## `createPost` -/

theorem typeCheck_pass {t : JsVal} (h : t = JsVal.str "reel" ∨ t = JsVal.str "post") :
    ([JsVal.str "reel", JsVal.str "post"].any fun x => x.strictEq t) = true := by
  rcases h with h | h <;> subst h <;> decide

theorem typeCheck_fail {t : JsVal} (h1 : t ≠ JsVal.str "reel") (h2 : t ≠ JsVal.str "post") :
    ([JsVal.str "reel", JsVal.str "post"].any fun x => x.strictEq t) = false := by
  have a : (JsVal.str "reel").strictEq t = false := by
    cases h : (JsVal.str "reel").strictEq t
    · rfl
    · exact absurd (JsVal.strictEq_eq h).symm h1
  have b : (JsVal.str "post").strictEq t = false := by
    cases h : (JsVal.str "post").strictEq t
    · rfl
    · exact absurd (JsVal.strictEq_eq h).symm h2
  simp [a, b]

theorem effectsOf_of_trace (run : World σ → Response × World σ) (w : World σ)
    (es : List Effect) (h : (run w).2.trace = w.trace ++ es) : effectsOf run w = es := by
  unfold effectsOf
  rw [h]
  exact List.drop_left _ _

theorem poolQuery_trace (env : Env σ) (sql : String) (params : List JsVal) (w : World σ) :
    (poolQuery env sql params w).2.trace = w.trace ++ [Effect.query sql params] := rfl

theorem createPost_rejected (env : Env σ) (req : Request) (w : World σ)
    (h : req.file = none ∨ (req.body.get "advertiser_id").truthy = false ∨
      (req.body.get "type").truthy = false ∨ (req.body.get "title").truthy = false ∨
      (req.body.get "type" ≠ JsVal.str "reel" ∧ req.body.get "type" ≠ JsVal.str "post")) :
    (createPost env req w).1.status = 400 ∧ (createPost env req w).2 = w := by
  unfold createPost
  simp only []
  cases hfile : req.file with
  | none => simp
  | some file =>
    simp only []
    rcases h with h | h | h | h | ⟨h1, h2⟩
    · rw [hfile] at h; cases h
    · simp [h]
    · simp [h]
    · simp [h]
    · rw [typeCheck_fail h1 h2]
      split <;> simp

theorem createPost_after_lookup (env : Env σ) (req : Request) (w : World σ) (file : Row)
    (hfile : req.file = some file)
    (hadv : (req.body.get "advertiser_id").truthy = true)
    (htype : req.body.get "type" = JsVal.str "reel" ∨ req.body.get "type" = JsVal.str "post")
    (htitle : (req.body.get "title").truthy = true) :
    (∀ e, (poolQuery env sqlSelectAdvertiser [req.body.get "advertiser_id"] w).1
        = Except.error e →
      createPost env req w = (⟨500, errorBody "Post creation failed"⟩,
        (poolQuery env sqlSelectAdvertiser [req.body.get "advertiser_id"] w).2)) ∧
    ((poolQuery env sqlSelectAdvertiser [req.body.get "advertiser_id"] w).1 = Except.ok [] →
      createPost env req w = (⟨404, errorBody "Advertiser not found"⟩,
        (poolQuery env sqlSelectAdvertiser [req.body.get "advertiser_id"] w).2)) ∧
    (∀ row rest, (poolQuery env sqlSelectAdvertiser [req.body.get "advertiser_id"] w).1
        = Except.ok (row :: rest) →
      (req.user = none →
        createPost env req w = (⟨401, errorBody "Unauthorized"⟩,
          (poolQuery env sqlSelectAdvertiser [req.body.get "advertiser_id"] w).2)) ∧
      (∀ caller, req.user = some caller →
        (caller.get "role").strictEq (JsVal.str "admin") = false →
        (JsVal.num (req.body.get "advertiser_id").parseInt).strictEq (caller.get "id") = false →
        createPost env req w
          = (⟨403, errorBody "Forbidden: cannot create posts for another advertiser"⟩,
            (poolQuery env sqlSelectAdvertiser [req.body.get "advertiser_id"] w).2))) := by
  have htt : (req.body.get "type").truthy = true := by
    rcases htype with h | h <;> rw [h] <;> decide
  refine ⟨?_, ?_, ?_⟩
  · intro e he
    have hpair : poolQuery env sqlSelectAdvertiser [req.body.get "advertiser_id"] w
        = (Except.error e, (poolQuery env sqlSelectAdvertiser [req.body.get "advertiser_id"] w).2) :=
      Prod.ext he rfl
    unfold createPost
    simp only [hfile, hadv, htt, htitle, typeCheck_pass htype]
    rw [hpair]
    simp
  · intro he
    have hpair : poolQuery env sqlSelectAdvertiser [req.body.get "advertiser_id"] w
        = (Except.ok [], (poolQuery env sqlSelectAdvertiser [req.body.get "advertiser_id"] w).2) :=
      Prod.ext he rfl
    unfold createPost
    simp only [hfile, hadv, htt, htitle, typeCheck_pass htype]
    rw [hpair]
    simp
  · intro row rest he
    have hpair : poolQuery env sqlSelectAdvertiser [req.body.get "advertiser_id"] w
        = (Except.ok (row :: rest),
          (poolQuery env sqlSelectAdvertiser [req.body.get "advertiser_id"] w).2) :=
      Prod.ext he rfl
    refine ⟨?_, ?_⟩
    · intro huser
      unfold createPost
      simp only [hfile, hadv, htt, htitle, typeCheck_pass htype]
      rw [hpair]
      simp [huser]
    · intro caller huser hrole hid
      unfold createPost
      simp only [hfile, hadv, htt, htitle, typeCheck_pass htype]
      rw [hpair]
      simp [huser, hrole, hid]

theorem effectsOf_of_world (run : World σ → Response × World σ) (w : World σ)
    (h : (run w).2 = w) : effectsOf run w = [] := by
  apply effectsOf_of_trace
  rw [h]
  simp

theorem effectsOf_of_lookup (env : Env σ) (req : Request) (w : World σ) (r : Response)
    (h : createPost env req w
      = (r, (poolQuery env sqlSelectAdvertiser [req.body.get "advertiser_id"] w).2)) :
    effectsOf (createPost env req) w
      = [Effect.query sqlSelectAdvertiser [req.body.get "advertiser_id"]] := by
  apply effectsOf_of_trace
  rw [h]
  rfl

theorem createPost_insert_authorized (env : Env σ) (req : Request) (w : World σ)
    (hins : ∃ e ∈ effectsOf (createPost env req) w, e.isPostInsert = true) :
    ∃ caller, req.user = some caller ∧
      (caller.get "role" = JsVal.str "admin" ∨
        caller.get "id" = JsVal.num (req.body.get "advertiser_id").parseInt) := by
  have hnone : effectsOf (createPost env req) w = [] → False := by
    intro h
    rw [h] at hins
    obtain ⟨e, he, _⟩ := hins
    cases he
  have hsel : effectsOf (createPost env req) w
      = [Effect.query sqlSelectAdvertiser [req.body.get "advertiser_id"]] → False := by
    intro h
    rw [h] at hins
    obtain ⟨e, he, hi⟩ := hins
    rw [List.mem_singleton] at he
    subst he
    have hne : (sqlSelectAdvertiser == sqlInsertPost) = false := by decide
    rw [Effect.isPostInsert, hne] at hi
    cases hi
  cases hfile : req.file with
  | none =>
    exact (hnone (effectsOf_of_world _ w
      (createPost_rejected env req w (Or.inl hfile)).2)).elim
  | some file =>
  cases hadv : (req.body.get "advertiser_id").truthy with
  | false =>
    exact (hnone (effectsOf_of_world _ w
      (createPost_rejected env req w (Or.inr (Or.inl hadv))).2)).elim
  | true =>
  cases htitle : (req.body.get "title").truthy with
  | false =>
    exact (hnone (effectsOf_of_world _ w
      (createPost_rejected env req w (Or.inr (Or.inr (Or.inr (Or.inl htitle))))).2)).elim
  | true =>
  by_cases htype : req.body.get "type" = JsVal.str "reel" ∨ req.body.get "type" = JsVal.str "post"
  · obtain ⟨herr, hempty, hrows⟩ := createPost_after_lookup env req w file hfile hadv htype htitle
    cases hq : (poolQuery env sqlSelectAdvertiser [req.body.get "advertiser_id"] w).1 with
    | error e => exact (hsel (effectsOf_of_lookup env req w _ (herr e hq))).elim
    | ok rows =>
      cases rows with
      | nil => exact (hsel (effectsOf_of_lookup env req w _ (hempty hq))).elim
      | cons row rest =>
        obtain ⟨hanon, hforeign⟩ := hrows row rest hq
        cases huser : req.user with
        | none => exact (hsel (effectsOf_of_lookup env req w _ (hanon huser))).elim
        | some caller =>
          refine ⟨caller, rfl, ?_⟩
          cases hrole : (caller.get "role").strictEq (JsVal.str "admin") with
          | true => exact Or.inl (JsVal.strictEq_eq hrole)
          | false =>
            cases hid : (JsVal.num (req.body.get "advertiser_id").parseInt).strictEq
                (caller.get "id") with
            | true => exact Or.inr (JsVal.strictEq_eq hid).symm
            | false =>
              exact (hsel (effectsOf_of_lookup env req w _
                (hforeign caller huser hrole hid))).elim
  · have h1 : req.body.get "type" ≠ JsVal.str "reel" := fun h => htype (Or.inl h)
    have h2 : req.body.get "type" ≠ JsVal.str "post" := fun h => htype (Or.inr h)
    exact (hnone (effectsOf_of_world _ w
      (createPost_rejected env req w (Or.inr (Or.inr (Or.inr (Or.inr ⟨h1, h2⟩))))).2)).elim

theorem JsVal.strictEq_false_of_ne {a b : JsVal} (h : a ≠ b) : a.strictEq b = false := by
  cases hs : a.strictEq b
  · rfl
  · exact absurd (JsVal.strictEq_eq hs) h

/-- C5. `createPost` inserts a post row only when the caller is present and is
an admin or has the id `parseInt(advertiser_id)`. For a request with a file,
valid required fields and type, and an existing advertiser, an absent caller
gets 401 and a non-admin caller with another id gets 403; in both cases the
only call made is the advertiser lookup: no upload, no insert. -/
theorem createPost_caller_check (env : Env σ) (req : Request) (w : World σ) :
    ((∃ e ∈ effectsOf (createPost env req) w, e.isPostInsert = true) →
      ∃ caller, req.user = some caller ∧
        (caller.get "role" = JsVal.str "admin" ∨
          caller.get "id" = JsVal.num (req.body.get "advertiser_id").parseInt)) ∧
    (∀ (file row : Row) (rest : List Row), req.file = some file →
      (req.body.get "advertiser_id").truthy = true →
      (req.body.get "type" = JsVal.str "reel" ∨ req.body.get "type" = JsVal.str "post") →
      (req.body.get "title").truthy = true →
      (poolQuery env sqlSelectAdvertiser [req.body.get "advertiser_id"] w).1
        = Except.ok (row :: rest) →
      (req.user = none →
        (createPost env req w).1 = ⟨401, errorBody "Unauthorized"⟩ ∧
        effectsOf (createPost env req) w
          = [Effect.query sqlSelectAdvertiser [req.body.get "advertiser_id"]]) ∧
      (∀ caller, req.user = some caller →
        caller.get "role" ≠ JsVal.str "admin" →
        caller.get "id" ≠ JsVal.num (req.body.get "advertiser_id").parseInt →
        (createPost env req w).1.status = 403 ∧
        effectsOf (createPost env req) w
          = [Effect.query sqlSelectAdvertiser [req.body.get "advertiser_id"]])) := by
  refine ⟨createPost_insert_authorized env req w, ?_⟩
  intro file row rest hfile hadv htype htitle hq
  obtain ⟨hanon, hforeign⟩ :=
    (createPost_after_lookup env req w file hfile hadv htype htitle).2.2 row rest hq
  refine ⟨?_, ?_⟩
  · intro huser
    exact ⟨by rw [hanon huser], effectsOf_of_lookup env req w _ (hanon huser)⟩
  · intro caller huser hrole hid
    have h := hforeign caller huser (JsVal.strictEq_false_of_ne hrole)
      (JsVal.strictEq_false_of_ne (fun h => hid h.symm))
    exact ⟨by rw [h], effectsOf_of_lookup env req w _ h⟩

/-- Witness for C5: with advertiser 7 stored, the request without credentials
gets 401 and the request of advertiser 8 gets 403, after the lookup alone. -/
theorem createPost_caller_check_witness :
    ((createPost scriptedEnv anonymousPostRequest ⟨[Except.ok [advertiserSeven]], []⟩).1.status = 401 ∧
      effectsOf (createPost scriptedEnv anonymousPostRequest) ⟨[Except.ok [advertiserSeven]], []⟩
        = [Effect.query sqlSelectAdvertiser [JsVal.str "7"]]) ∧
    ((createPost scriptedEnv foreignPostRequest ⟨[Except.ok [advertiserSeven]], []⟩).1.status = 403 ∧
      effectsOf (createPost scriptedEnv foreignPostRequest) ⟨[Except.ok [advertiserSeven]], []⟩
        = [Effect.query sqlSelectAdvertiser [JsVal.str "7"]]) := by
  have h1 := ((createPost_caller_check scriptedEnv anonymousPostRequest
    ⟨[Except.ok [advertiserSeven]], []⟩).2 [("path", JsVal.str "/tmp/upload-1")]
    advertiserSeven [] rfl (by decide) (by decide) (by decide) rfl).1 rfl
  have h2 := ((createPost_caller_check scriptedEnv foreignPostRequest
    ⟨[Except.ok [advertiserSeven]], []⟩).2 [("path", JsVal.str "/tmp/upload-1")]
    advertiserSeven [] rfl (by decide) (by decide) (by decide) rfl).2
    [("id", JsVal.num (JsNum.fin 8)), ("role", JsVal.str "advertiser")] rfl
    (by decide) (by decide!)
  exact ⟨⟨by rw [h1.1], h1.2⟩, h2⟩

theorem time_check_skipped (env : Env σ) (wr rt : JsVal) (h : rt.truthy = false) :
    ((wr.strictEq (JsVal.str "true") || wr.strictEq (JsVal.bool true))
      && ((if rt.truthy then newDate env rt else JsVal.null).truthy
        && (if rt.truthy then newDate env rt else JsVal.null).le (JsVal.date env.now))) = false := by
  rw [h]
  have hn : JsVal.null.truthy = false := rfl
  simp [hn]

theorem createPost_passes (env : Env σ) (req : Request) (w : World σ)
    (file caller row media : Row) (rest : List Row)
    (hfile : req.file = some file)
    (hadv : (req.body.get "advertiser_id").truthy = true)
    (htype : req.body.get "type" = JsVal.str "reel" ∨ req.body.get "type" = JsVal.str "post")
    (htitle : (req.body.get "title").truthy = true)
    (hq : (poolQuery env sqlSelectAdvertiser [req.body.get "advertiser_id"] w).1
      = Except.ok (row :: rest))
    (huser : req.user = some caller)
    (hauth : (caller.get "role").strictEq (JsVal.str "admin") = true ∨
      (JsVal.num (req.body.get "advertiser_id").parseInt).strictEq (caller.get "id") = true)
    (hup : env.upload (file.get "path") = Except.ok media)
    (htime : (((req.body.get "with_reservation").strictEq (JsVal.str "true")
        || (req.body.get "with_reservation").strictEq (JsVal.bool true))
      && ((if (req.body.get "reservation_time").truthy
            then newDate env (req.body.get "reservation_time") else JsVal.null).truthy
        && (if (req.body.get "reservation_time").truthy
            then newDate env (req.body.get "reservation_time") else JsVal.null).le
              (JsVal.date env.now))) = false)
    (hlimit : (((req.body.get "with_reservation").strictEq (JsVal.str "true")
        || (req.body.get "with_reservation").strictEq (JsVal.bool true))
      && ((if (req.body.get "reservation_limit").truthy
            then JsVal.num (req.body.get "reservation_limit").parseInt else JsVal.null).truthy
        && (if (req.body.get "reservation_limit").truthy
            then JsVal.num (req.body.get "reservation_limit").parseInt else JsVal.null).le
              (JsVal.num (JsNum.fin 0)))) = false) :
    ((createPost env req w).1.status = 201 ∨ (createPost env req w).1.status = 500) ∧
    ∃ tail, (createPost env req w).2.trace
      = w.trace ++ [Effect.query sqlSelectAdvertiser [req.body.get "advertiser_id"],
          Effect.upload (file.get "path"),
          Effect.query sqlInsertPost
            [req.body.get "advertiser_id", req.body.get "category_id", req.body.get "type",
              req.body.get "title", req.body.get "description", req.body.get "price",
              req.body.get "old_price",
              JsVal.bool ((req.body.get "with_reservation").strictEq (JsVal.str "true")
                || (req.body.get "with_reservation").strictEq (JsVal.bool true)),
              if (req.body.get "reservation_time").truthy
                then newDate env (req.body.get "reservation_time") else JsVal.null,
              if (req.body.get "reservation_limit").truthy
                then JsVal.num (req.body.get "reservation_limit").parseInt else JsVal.null,
              req.body.get "social_link", media.get "secure_url"]] ++ tail := by
  have htt : (req.body.get "type").truthy = true := by
    rcases htype with h | h <;> rw [h] <;> decide
  have hpair : poolQuery env sqlSelectAdvertiser [req.body.get "advertiser_id"] w
      = (Except.ok (row :: rest),
        (poolQuery env sqlSelectAdvertiser [req.body.get "advertiser_id"] w).2) :=
    Prod.ext hq rfl
  have hauth' : (!(caller.get "role").strictEq (JsVal.str "admin") &&
      !(JsVal.num (req.body.get "advertiser_id").parseInt).strictEq (caller.get "id")) = false := by
    rcases hauth with h | h <;> simp [h]
  unfold createPost
  simp only [hfile, hadv, htt, htitle, typeCheck_pass htype, huser]
  rw [hpair]
  simp only [hauth', cloudinaryUpload, hup, htime, hlimit]
  generalize hins : poolQuery env sqlInsertPost _ _ = r
  obtain ⟨res, w3⟩ := r
  have hw3 := congrArg (fun x => x.2.trace) hins
  simp only [poolQuery] at hw3
  cases res with
  | error e => exact ⟨Or.inr (by simp), [], by simp [← hw3]⟩
  | ok result =>
    cases result with
    | nil => exact ⟨Or.inr (by simp), [Effect.unlink (file.get "path")], by simp [fsUnlink, ← hw3]⟩
    | cons inserted more =>
      simp only []
      generalize hc : poolQuery env sqlCompletePost _ _ = r5
      obtain ⟨res5, w5⟩ := r5
      have hw5 := congrArg (fun x => x.2.trace) hc
      simp only [poolQuery, fsUnlink] at hw5
      cases res5 with
      | error e =>
        exact ⟨Or.inr (by simp), [Effect.unlink (file.get "path"),
          Effect.query sqlCompletePost [inserted.get "id"]], by simp [← hw5, ← hw3]⟩
      | ok completePost =>
        exact ⟨Or.inl (by simp), [Effect.unlink (file.get "path"),
          Effect.query sqlCompletePost [inserted.get "id"]], by simp [← hw5, ← hw3]⟩

/-- C7. `createPost` answers 400 without any call to the store or the
uploader when no file is attached, when `advertiser_id`, `type` or `title` is
missing or empty, or when `type` is neither `'reel'` nor `'post'`; when those
checks pass and the advertiser lookup finds no row it answers 404 and the
lookup is the only call made. -/
theorem createPost_validation (env : Env σ) (req : Request) (w : World σ) :
    ((req.file = none ∨ (req.body.get "advertiser_id").missingOrEmpty ∨
        (req.body.get "type").missingOrEmpty ∨ (req.body.get "title").missingOrEmpty ∨
        (req.body.get "type" ≠ JsVal.str "reel" ∧ req.body.get "type" ≠ JsVal.str "post")) →
      (createPost env req w).1.status = 400 ∧ (createPost env req w).2 = w ∧
      effectsOf (createPost env req) w = []) ∧
    (∀ file : Row, req.file = some file →
      (req.body.get "advertiser_id").truthy = true →
      (req.body.get "type" = JsVal.str "reel" ∨ req.body.get "type" = JsVal.str "post") →
      (req.body.get "title").truthy = true →
      (poolQuery env sqlSelectAdvertiser [req.body.get "advertiser_id"] w).1 = Except.ok [] →
      (createPost env req w).1 = ⟨404, errorBody "Advertiser not found"⟩ ∧
      effectsOf (createPost env req) w
        = [Effect.query sqlSelectAdvertiser [req.body.get "advertiser_id"]]) := by
  refine ⟨?_, ?_⟩
  · intro h
    have h' : req.file = none ∨ (req.body.get "advertiser_id").truthy = false ∨
        (req.body.get "type").truthy = false ∨ (req.body.get "title").truthy = false ∨
        (req.body.get "type" ≠ JsVal.str "reel" ∧ req.body.get "type" ≠ JsVal.str "post") := by
      rcases h with h | h | h | h | h
      · exact Or.inl h
      · exact Or.inr (Or.inl (JsVal.missingOrEmpty_truthy h))
      · exact Or.inr (Or.inr (Or.inl (JsVal.missingOrEmpty_truthy h)))
      · exact Or.inr (Or.inr (Or.inr (Or.inl (JsVal.missingOrEmpty_truthy h))))
      · exact Or.inr (Or.inr (Or.inr (Or.inr h)))
    obtain ⟨h1, h2⟩ := createPost_rejected env req w h'
    exact ⟨h1, h2, effectsOf_of_world _ w h2⟩
  · intro file hfile hadv htype htitle hq
    have h := (createPost_after_lookup env req w file hfile hadv htype htitle).2.1 hq
    exact ⟨by rw [h], effectsOf_of_lookup env req w _ h⟩

/-- Witness for C7: a request without a file gets 400 and leaves the world
untouched; a complete request for an unknown advertiser gets 404 after the
lookup alone. -/
theorem createPost_validation_witness :
    ((createPost scriptedEnv noFileRequest ⟨[], []⟩).1.status = 400 ∧
      (createPost scriptedEnv noFileRequest ⟨[], []⟩).2 = ⟨[], []⟩ ∧
      effectsOf (createPost scriptedEnv noFileRequest) ⟨[], []⟩ = []) ∧
    ((createPost scriptedEnv ownPostRequest ⟨[Except.ok []], []⟩).1
        = ⟨404, errorBody "Advertiser not found"⟩ ∧
      effectsOf (createPost scriptedEnv ownPostRequest) ⟨[Except.ok []], []⟩
        = [Effect.query sqlSelectAdvertiser [JsVal.str "7"]]) :=
  ⟨(createPost_validation scriptedEnv noFileRequest ⟨[], []⟩).1 (Or.inl rfl),
    (createPost_validation scriptedEnv ownPostRequest ⟨[Except.ok []], []⟩).2
      [("path", JsVal.str "/tmp/upload-1")] rfl (by decide) (by decide) (by decide) rfl⟩

/-- C4 (failing input). With reservations enabled and `reservation_limit`
`"0"`, whatever the store: once the advertiser is found and the upload
succeeds, `createPost` does not answer 400 (it answers 201, or 500 when the
store fails) and issues the posts INSERT with `with_reservation = true` and
`reservation_limit = 0`. -/
theorem createPost_zero_limit_inserted (env : Env σ) (w : World σ) (row media : Row)
    (rest : List Row)
    (hq : (poolQuery env sqlSelectAdvertiser [JsVal.str "7"] w).1 = Except.ok (row :: rest))
    (hup : env.upload (JsVal.str "/tmp/upload-1") = Except.ok media) :
    ((createPost env zeroLimitRequest w).1.status = 201 ∨
      (createPost env zeroLimitRequest w).1.status = 500) ∧
    ∃ tail, (createPost env zeroLimitRequest w).2.trace
      = w.trace ++ [Effect.query sqlSelectAdvertiser [JsVal.str "7"],
          Effect.upload (JsVal.str "/tmp/upload-1"),
          Effect.query sqlInsertPost
            [JsVal.str "7", JsVal.undefined, JsVal.str "post", JsVal.str "Table for two",
              JsVal.undefined, JsVal.undefined, JsVal.undefined, JsVal.bool true, JsVal.null,
              JsVal.num (JsNum.fin 0), JsVal.undefined, media.get "secure_url"]] ++ tail := by
  have p0 : (JsVal.str "0").parseInt = JsNum.fin 0 := by decide!
  have h := createPost_passes env zeroLimitRequest w [("path", JsVal.str "/tmp/upload-1")]
    [("id", JsVal.num (JsNum.fin 7)), ("role", JsVal.str "advertiser")] row media rest
    rfl (by decide) (by decide) (by decide) hq rfl (Or.inr (by decide!)) hup
    (time_check_skipped env _ _ (by decide)) (by decide!)
  have e1 : zeroLimitRequest.body.get "advertiser_id" = JsVal.str "7" := by decide
  have e2 : zeroLimitRequest.body.get "type" = JsVal.str "post" := by decide
  have e3 : zeroLimitRequest.body.get "title" = JsVal.str "Table for two" := by decide
  have e4 : zeroLimitRequest.body.get "with_reservation" = JsVal.str "true" := by decide
  have e5 : zeroLimitRequest.body.get "reservation_limit" = JsVal.str "0" := by decide
  have e6 : zeroLimitRequest.body.get "reservation_time" = JsVal.undefined := by decide
  have e7 : zeroLimitRequest.body.get "category_id" = JsVal.undefined := by decide
  have e8 : zeroLimitRequest.body.get "description" = JsVal.undefined := by decide
  have e9 : zeroLimitRequest.body.get "price" = JsVal.undefined := by decide
  have e10 : zeroLimitRequest.body.get "old_price" = JsVal.undefined := by decide
  have e11 : zeroLimitRequest.body.get "social_link" = JsVal.undefined := by decide
  have t1 : (JsVal.str "0").truthy = true := by decide
  have t2 : JsVal.undefined.truthy = false := by decide
  have t3 : ((JsVal.str "true").strictEq (JsVal.str "true")
      || (JsVal.str "true").strictEq (JsVal.bool true)) = true := by decide
  have t4 : Row.get [("path", JsVal.str "/tmp/upload-1")] "path" = JsVal.str "/tmp/upload-1" := by
    decide
  rw [e1, e2, e3, e4, e5, e6, e7, e8, e9, e10, e11, t1, t2, t3, t4, p0] at h
  exact h

/-- Witness for C4: with advertiser 7 stored and a store that accepts the
row, the answer is 201 and the inserted row has `reservation_limit = 0`. -/
theorem createPost_zero_limit_inserted_witness :
    (createPost scriptedEnv zeroLimitRequest (acceptingWorld advertiserSeven)).1.status = 201 ∧
    ∃ tail, (createPost scriptedEnv zeroLimitRequest (acceptingWorld advertiserSeven)).2.trace
      = [] ++ [Effect.query sqlSelectAdvertiser [JsVal.str "7"],
          Effect.upload (JsVal.str "/tmp/upload-1"),
          Effect.query sqlInsertPost
            [JsVal.str "7", JsVal.undefined, JsVal.str "post", JsVal.str "Table for two",
              JsVal.undefined, JsVal.undefined, JsVal.undefined, JsVal.bool true, JsVal.null,
              JsVal.num (JsNum.fin 0), JsVal.undefined, JsVal.str "https://media.example/1"]]
        ++ tail :=
  ⟨by decide!, (createPost_zero_limit_inserted scriptedEnv (acceptingWorld advertiserSeven)
    advertiserSeven [("secure_url", JsVal.str "https://media.example/1")] [] rfl rfl).2⟩

/-- C6 (failing input). When `advertiser_id` names an account whose role is
`'user'`, whatever the store: once the upload succeeds `createPost` issues the
posts INSERT for that account and answers 201 (500 when the store fails), for
an admin caller and for the account acting for itself. The looked-up `role`
is never read. -/
theorem createPost_user_role_inserted (env : Env σ) (w : World σ) (row media : Row)
    (rest : List Row)
    (hq : (poolQuery env sqlSelectAdvertiser [JsVal.str "7"] w).1 = Except.ok (row :: rest))
    (_hrole : row.get "role" = JsVal.str "user")
    (hup : env.upload (JsVal.str "/tmp/upload-1") = Except.ok media) :
    (((createPost env adminForUserRequest w).1.status = 201 ∨
        (createPost env adminForUserRequest w).1.status = 500) ∧
      ∃ tail, (createPost env adminForUserRequest w).2.trace
        = w.trace ++ [Effect.query sqlSelectAdvertiser [JsVal.str "7"],
            Effect.upload (JsVal.str "/tmp/upload-1"),
            Effect.query sqlInsertPost
              [JsVal.str "7", JsVal.undefined, JsVal.str "post", JsVal.str "Table for two",
                JsVal.undefined, JsVal.undefined, JsVal.undefined, JsVal.bool false, JsVal.null,
                JsVal.null, JsVal.undefined, media.get "secure_url"]] ++ tail) ∧
    (((createPost env normalUserPostRequest w).1.status = 201 ∨
        (createPost env normalUserPostRequest w).1.status = 500) ∧
      ∃ tail, (createPost env normalUserPostRequest w).2.trace
        = w.trace ++ [Effect.query sqlSelectAdvertiser [JsVal.str "7"],
            Effect.upload (JsVal.str "/tmp/upload-1"),
            Effect.query sqlInsertPost
              [JsVal.str "7", JsVal.undefined, JsVal.str "post", JsVal.str "Table for two",
                JsVal.undefined, JsVal.undefined, JsVal.undefined, JsVal.bool false, JsVal.null,
                JsVal.null, JsVal.undefined, media.get "secure_url"]] ++ tail) := by
  have h1 := createPost_passes env adminForUserRequest w [("path", JsVal.str "/tmp/upload-1")]
    [("id", JsVal.num (JsNum.fin 1)), ("role", JsVal.str "admin")] row media rest
    rfl (by decide) (by decide) (by decide) hq rfl (Or.inl (by decide)) hup
    (time_check_skipped env _ _ (by decide)) (by decide)
  have h2 := createPost_passes env normalUserPostRequest w [("path", JsVal.str "/tmp/upload-1")]
    [("id", JsVal.num (JsNum.fin 7)), ("role", JsVal.str "user")] row media rest
    rfl (by decide) (by decide) (by decide) hq rfl (Or.inr (by decide!)) hup
    (time_check_skipped env _ _ (by decide)) (by decide)
  have a1 : adminForUserRequest.body = ownPostRequest.body := rfl
  have a2 : normalUserPostRequest.body = ownPostRequest.body := rfl
  have e1 : ownPostRequest.body.get "advertiser_id" = JsVal.str "7" := by decide
  have e2 : ownPostRequest.body.get "type" = JsVal.str "post" := by decide
  have e3 : ownPostRequest.body.get "title" = JsVal.str "Table for two" := by decide
  have e4 : ownPostRequest.body.get "with_reservation" = JsVal.undefined := by decide
  have e5 : ownPostRequest.body.get "reservation_limit" = JsVal.undefined := by decide
  have e6 : ownPostRequest.body.get "reservation_time" = JsVal.undefined := by decide
  have e7 : ownPostRequest.body.get "category_id" = JsVal.undefined := by decide
  have e8 : ownPostRequest.body.get "description" = JsVal.undefined := by decide
  have e9 : ownPostRequest.body.get "price" = JsVal.undefined := by decide
  have e10 : ownPostRequest.body.get "old_price" = JsVal.undefined := by decide
  have e11 : ownPostRequest.body.get "social_link" = JsVal.undefined := by decide
  have t2 : JsVal.undefined.truthy = false := by decide
  have t3 : (JsVal.undefined.strictEq (JsVal.str "true")
      || JsVal.undefined.strictEq (JsVal.bool true)) = false := by decide
  have t4 : Row.get [("path", JsVal.str "/tmp/upload-1")] "path" = JsVal.str "/tmp/upload-1" := by
    decide
  rw [a1, e1, e2, e3, e4, e5, e6, e7, e8, e9, e10, e11, t2, t3, t4] at h1
  rw [a2, e1, e2, e3, e4, e5, e6, e7, e8, e9, e10, e11, t2, t3, t4] at h2
  exact ⟨h1, h2⟩

/-- Witness for C6: account 7 is stored as a normal user; the admin's request
and the account's own request are both answered 201 after the INSERT. -/
theorem createPost_user_role_inserted_witness :
    (createPost scriptedEnv adminForUserRequest (acceptingWorld normalUserSeven)).1.status = 201 ∧
    (createPost scriptedEnv normalUserPostRequest (acceptingWorld normalUserSeven)).1.status = 201 ∧
    ∃ tail, (createPost scriptedEnv adminForUserRequest (acceptingWorld normalUserSeven)).2.trace
      = [] ++ [Effect.query sqlSelectAdvertiser [JsVal.str "7"],
          Effect.upload (JsVal.str "/tmp/upload-1"),
          Effect.query sqlInsertPost
            [JsVal.str "7", JsVal.undefined, JsVal.str "post", JsVal.str "Table for two",
              JsVal.undefined, JsVal.undefined, JsVal.undefined, JsVal.bool false, JsVal.null,
              JsVal.null, JsVal.undefined, JsVal.str "https://media.example/1"]] ++ tail :=
  ⟨by decide!, by decide!, (createPost_user_role_inserted scriptedEnv
    (acceptingWorld normalUserSeven) normalUserSeven
    [("secure_url", JsVal.str "https://media.example/1")] [] rfl rfl rfl).1.2⟩

/-! ## Registration -/

theorem registerWith_rejected (sql : String) (env : Env σ) (req : Request) (w : World σ)
    (h : (req.body.get "name").truthy = false ∨ (req.body.get "email").truthy = false ∨
      (req.body.get "phone").truthy = false ∨ (req.body.get "password").truthy = false ∨
      (req.body.get "password").isString = false) :
    registerWith sql env req w = (⟨400, missingFieldsBody⟩, w) := by
  unfold registerWith
  rcases h with h | h | h | h | h <;> simp [h]

/-- C8. A request to `registerUser`, `registerNormalUser` or
`registerAdvertiser` in which `name`, `email`, `phone` or `password` is
missing or empty, or `password` is not a string, gets 400 and leaves the world
as it was: the hasher and the store are not called. -/
theorem register_missing_fields (env : Env σ) (req : Request) (w : World σ)
    (h : (req.body.get "name").missingOrEmpty ∨ (req.body.get "email").missingOrEmpty ∨
      (req.body.get "phone").missingOrEmpty ∨ (req.body.get "password").missingOrEmpty ∨
      (req.body.get "password").isString = false) :
    (registerUser env req w = (⟨400, missingFieldsBody⟩, w) ∧
      effectsOf (registerUser env req) w = []) ∧
    (registerNormalUser env req w = (⟨400, missingFieldsBody⟩, w) ∧
      effectsOf (registerNormalUser env req) w = []) ∧
    (registerAdvertiser env req w = (⟨400, missingFieldsBody⟩, w) ∧
      effectsOf (registerAdvertiser env req) w = []) := by
  have h' : (req.body.get "name").truthy = false ∨ (req.body.get "email").truthy = false ∨
      (req.body.get "phone").truthy = false ∨ (req.body.get "password").truthy = false ∨
      (req.body.get "password").isString = false := by
    rcases h with h | h | h | h | h
    · exact Or.inl (JsVal.missingOrEmpty_truthy h)
    · exact Or.inr (Or.inl (JsVal.missingOrEmpty_truthy h))
    · exact Or.inr (Or.inr (Or.inl (JsVal.missingOrEmpty_truthy h)))
    · exact Or.inr (Or.inr (Or.inr (Or.inl (JsVal.missingOrEmpty_truthy h))))
    · exact Or.inr (Or.inr (Or.inr (Or.inr h)))
  have h1 : registerUser env req w = (⟨400, missingFieldsBody⟩, w) :=
    registerWith_rejected sqlInsertUser env req w h'
  have h2 : registerAdvertiser env req w = (⟨400, missingFieldsBody⟩, w) :=
    registerWith_rejected sqlInsertAdvertiser env req w h'
  refine ⟨⟨h1, ?_⟩, ⟨h1, ?_⟩, ⟨h2, ?_⟩⟩
  · exact effectsOf_of_world _ w (by rw [h1])
  · exact effectsOf_of_world _ w (by rw [show registerNormalUser env req w = _ from h1])
  · exact effectsOf_of_world _ w (by rw [h2])

/-- Witness for C8: a registration whose password is the number 1234. -/
theorem register_missing_fields_witness :
    registerUser plainUsersEnv numericPasswordRequest ⟨[aliceRow], []⟩
        = (⟨400, missingFieldsBody⟩, ⟨[aliceRow], []⟩) ∧
    registerAdvertiser plainUsersEnv numericPasswordRequest ⟨[aliceRow], []⟩
        = (⟨400, missingFieldsBody⟩, ⟨[aliceRow], []⟩) := by
  have h := register_missing_fields plainUsersEnv numericPasswordRequest ⟨[aliceRow], []⟩
    (Or.inr (Or.inr (Or.inr (Or.inr rfl))))
  exact ⟨h.1.1, h.2.2.1⟩

theorem registerWith_duplicate (sql : String)
    (hsql : sql = sqlInsertUser ∨ sql = sqlInsertAdvertiser)
    (hashPassword : String → String) (checkPassword : String → String → Bool)
    (sign : Row → Except JsError String) (req : Request) (w : World (List Row))
    (hname : (req.body.get "name").truthy = true)
    (hemail : (req.body.get "email").truthy = true)
    (hphone : (req.body.get "phone").truthy = true)
    (hpass : (req.body.get "password").truthy = true)
    (hstr : (req.body.get "password").isString = true)
    (hdup : ∃ row ∈ w.store, row.get "email" = req.body.get "email") :
    (registerWith sql (usersEnv hashPassword checkPassword sign) req w).1
        = ⟨409, errorBody "Email already exists"⟩ ∧
      (registerWith sql (usersEnv hashPassword checkPassword sign) req w).2.store = w.store := by
  have hany : (w.store.any fun r => r.get "email" == req.body.get "email") = true := by
    rw [List.any_eq_true]
    obtain ⟨row, hmem, heq⟩ := hdup
    exact ⟨row, hmem, by simp [heq]⟩
  cases hp : req.body.get "password" with
  | str s =>
    rw [hp] at hpass hstr
    unfold registerWith
    simp only [hname, hemail, hphone, hp, bcryptHash, poolQuery, usersEnv,
      usersQuery, hsql, hany, registrationFailed]
    simp [JsVal.strictEq, hpass, hstr]
  | _ => rw [hp] at hstr; cases hstr

/-- C9 (as amended). For every registration request (`registerUser`,
`registerNormalUser`, `registerAdvertiser`) that passes the required-field
validation and whose email already exists in the users table, the response is
409 'Email already exists' whatever the other fields are, and the users table
is unchanged. -/
theorem register_duplicate_email (hashPassword : String → String)
    (checkPassword : String → String → Bool) (sign : Row → Except JsError String)
    (req : Request) (w : World (List Row))
    (hname : (req.body.get "name").truthy = true)
    (hemail : (req.body.get "email").truthy = true)
    (hphone : (req.body.get "phone").truthy = true)
    (hpass : (req.body.get "password").truthy = true)
    (hstr : (req.body.get "password").isString = true)
    (hdup : ∃ row ∈ w.store, row.get "email" = req.body.get "email") :
    ((registerUser (usersEnv hashPassword checkPassword sign) req w).1
        = ⟨409, errorBody "Email already exists"⟩ ∧
      (registerUser (usersEnv hashPassword checkPassword sign) req w).2.store = w.store) ∧
    ((registerNormalUser (usersEnv hashPassword checkPassword sign) req w).1
        = ⟨409, errorBody "Email already exists"⟩ ∧
      (registerNormalUser (usersEnv hashPassword checkPassword sign) req w).2.store = w.store) ∧
    ((registerAdvertiser (usersEnv hashPassword checkPassword sign) req w).1
        = ⟨409, errorBody "Email already exists"⟩ ∧
      (registerAdvertiser (usersEnv hashPassword checkPassword sign) req w).2.store = w.store) :=
  ⟨registerWith_duplicate sqlInsertUser (Or.inl rfl) hashPassword checkPassword sign req w
      hname hemail hphone hpass hstr hdup,
    registerWith_duplicate sqlInsertUser (Or.inl rfl) hashPassword checkPassword sign req w
      hname hemail hphone hpass hstr hdup,
    registerWith_duplicate sqlInsertAdvertiser (Or.inr rfl) hashPassword checkPassword sign req w
      hname hemail hphone hpass hstr hdup⟩

/-- Witness for C9: a complete registration under Alice's email. -/
theorem register_duplicate_email_witness :
    (registerUser plainUsersEnv duplicateEmailRequest ⟨[aliceRow], []⟩).1
        = ⟨409, errorBody "Email already exists"⟩ ∧
    (registerUser plainUsersEnv duplicateEmailRequest ⟨[aliceRow], []⟩).2.store = [aliceRow] ∧
    (registerAdvertiser plainUsersEnv duplicateEmailRequest ⟨[aliceRow], []⟩).1
        = ⟨409, errorBody "Email already exists"⟩ ∧
    (registerAdvertiser plainUsersEnv duplicateEmailRequest ⟨[aliceRow], []⟩).2.store
        = [aliceRow] := by
  have h := register_duplicate_email (fun s => "hashed:" ++ s) (fun s h => h == "hashed:" ++ s)
    (fun _ => Except.ok "token") duplicateEmailRequest ⟨[aliceRow], []⟩
    (by decide) (by decide) (by decide) (by decide) (by decide)
    ⟨aliceRow, List.mem_singleton.mpr rfl, by decide⟩
  exact ⟨h.1.1, h.1.2, h.2.2.1, h.2.2.2⟩

/-- Counterexample to C9 as stated: Alice's email is in the users table, the
request carries that email and no `name`; the response is 400, not 409. -/
theorem register_duplicate_email_counterexample :
    (∃ row ∈ [aliceRow], row.get "email" = duplicateEmailNoNameRequest.body.get "email") ∧
    (registerUser plainUsersEnv duplicateEmailNoNameRequest ⟨[aliceRow], []⟩).1.status = 400 ∧
    (registerAdvertiser plainUsersEnv duplicateEmailNoNameRequest ⟨[aliceRow], []⟩).1.status = 400 ∧
    ¬ ((registerUser plainUsersEnv duplicateEmailNoNameRequest ⟨[aliceRow], []⟩).1.status = 409) := by
  decide!

/-! ## Login -/

theorem login_wrong_password (env : Env σ) (req : Request) (w : World σ) (s : String)
    (hpass : req.body.get "password" = JsVal.str s)
    (hinvalid : (poolQuery env sqlSelectUserByEmail [req.body.get "email"] w).1 = Except.ok [] ∨
      ∃ user rest h,
        (poolQuery env sqlSelectUserByEmail [req.body.get "email"] w).1
          = Except.ok (user :: rest) ∧
        user.get "password_hash" = JsVal.str h ∧ env.checkPassword s h = false) :
    (loginUser env req w).1 = invalidCredentials ∧
    (loginAsUser env req w).1 = invalidCredentials ∧
    (loginAsAdvertiser env req w).1 = invalidCredentials := by
  rcases hinvalid with hq | ⟨user, rest, h, hq, hhash, hcheck⟩
  · have hpair : poolQuery env sqlSelectUserByEmail [req.body.get "email"] w
        = (Except.ok [], (poolQuery env sqlSelectUserByEmail [req.body.get "email"] w).2) :=
      Prod.ext hq rfl
    refine ⟨?_, ?_, ?_⟩
    · unfold loginUser; simp only []; rw [hpair]
    · unfold loginAsUser; simp only []; rw [hpair]
    · unfold loginAsAdvertiser; simp only []; rw [hpair]
  · have hpair : poolQuery env sqlSelectUserByEmail [req.body.get "email"] w
        = (Except.ok (user :: rest),
          (poolQuery env sqlSelectUserByEmail [req.body.get "email"] w).2) :=
      Prod.ext hq rfl
    refine ⟨?_, ?_, ?_⟩
    · unfold loginUser; simp only []; rw [hpair]
      simp [bcryptCompare, hpass, hhash, hcheck]
    · unfold loginAsUser; simp only []; rw [hpair]
      simp [bcryptCompare, hpass, hhash, hcheck]
    · unfold loginAsAdvertiser; simp only []; rw [hpair]
      simp [bcryptCompare, hpass, hhash, hcheck]

theorem bcryptCompare_not_string (env : Env σ) (password hash : JsVal) (w : World σ)
    (h : password.isString = false) :
    (bcryptCompare env password hash w).1
      = Except.error ⟨JsVal.undefined, "Illegal arguments"⟩ := by
  cases password <;> first | rfl | cases h

/-- C10 (failing input). For a login whose password is missing or not a
string, whatever the store: when an account with the email exists the three
login handlers answer 500 'Login failed', when none exists they answer 401
'Invalid credentials'. The two responses differ, so the response tells
whether the email is registered. -/
theorem login_missing_password_leaks (env : Env σ) (req : Request) (w₁ w₂ : World σ)
    (user : Row) (rest : List Row)
    (hpass : (req.body.get "password").isString = false)
    (hexists : (poolQuery env sqlSelectUserByEmail [req.body.get "email"] w₁).1
      = Except.ok (user :: rest))
    (habsent : (poolQuery env sqlSelectUserByEmail [req.body.get "email"] w₂).1
      = Except.ok []) :
    ((loginUser env req w₁).1 = loginFailed ∧
      (loginUser env req w₂).1 = invalidCredentials) ∧
    ((loginAsUser env req w₁).1 = loginFailed ∧
      (loginAsUser env req w₂).1 = invalidCredentials) ∧
    ((loginAsAdvertiser env req w₁).1 = loginFailed ∧
      (loginAsAdvertiser env req w₂).1 = invalidCredentials) ∧
    loginFailed ≠ invalidCredentials := by
  have hp₁ : poolQuery env sqlSelectUserByEmail [req.body.get "email"] w₁
      = (Except.ok (user :: rest),
        (poolQuery env sqlSelectUserByEmail [req.body.get "email"] w₁).2) :=
    Prod.ext hexists rfl
  have hp₂ : poolQuery env sqlSelectUserByEmail [req.body.get "email"] w₂
      = (Except.ok [], (poolQuery env sqlSelectUserByEmail [req.body.get "email"] w₂).2) :=
    Prod.ext habsent rfl
  have hcmp : ∀ w : World σ,
      bcryptCompare env (req.body.get "password") (user.get "password_hash") w
        = (Except.error ⟨JsVal.undefined, "Illegal arguments"⟩,
          (bcryptCompare env (req.body.get "password") (user.get "password_hash") w).2) :=
    fun w => Prod.ext (bcryptCompare_not_string env _ _ w hpass) rfl
  refine ⟨⟨?_, ?_⟩, ⟨?_, ?_⟩, ⟨?_, ?_⟩, by decide⟩
  · unfold loginUser; simp only []; rw [hp₁]; simp only []; rw [hcmp]
  · unfold loginUser; simp only []; rw [hp₂]
  · unfold loginAsUser; simp only []; rw [hp₁]; simp only []; rw [hcmp]
  · unfold loginAsUser; simp only []; rw [hp₂]
  · unfold loginAsAdvertiser; simp only []; rw [hp₁]; simp only []; rw [hcmp]
  · unfold loginAsAdvertiser; simp only []; rw [hp₂]

/-- Witness for C10: a login with Alice's email and no password is answered
500 when Alice's account is stored and 401 when the users table is empty. -/
theorem login_missing_password_leaks_witness :
    ((loginUser plainUsersEnv missingPasswordLogin ⟨[aliceRow], []⟩).1 = loginFailed ∧
      (loginUser plainUsersEnv missingPasswordLogin ⟨[], []⟩).1 = invalidCredentials) ∧
    ((loginAsUser plainUsersEnv missingPasswordLogin ⟨[aliceRow], []⟩).1 = loginFailed ∧
      (loginAsUser plainUsersEnv missingPasswordLogin ⟨[], []⟩).1 = invalidCredentials) ∧
    ((loginAsAdvertiser plainUsersEnv missingPasswordLogin ⟨[aliceRow], []⟩).1 = loginFailed ∧
      (loginAsAdvertiser plainUsersEnv missingPasswordLogin ⟨[], []⟩).1 = invalidCredentials) ∧
    loginFailed ≠ invalidCredentials :=
  login_missing_password_leaks plainUsersEnv missingPasswordLogin ⟨[aliceRow], []⟩ ⟨[], []⟩
    aliceRow [] (by decide) rfl rfl

theorem loginUser_sign_payload (env : Env σ) (req : Request) (w : World σ) (payload : Row)
    (h : Effect.sign payload ∈ effectsOf (loginUser env req) w) :
    ∃ u rest, (poolQuery env sqlSelectUserByEmail [req.body.get "email"] w).1
        = Except.ok (u :: rest) ∧
      payload = [("id", u.get "id"), ("role", u.get "role")] := by
  revert h
  unfold effectsOf loginUser
  simp only []
  generalize hq : poolQuery env sqlSelectUserByEmail _ w = r
  obtain ⟨res, w1⟩ := r
  have hw1 := congrArg (fun x => x.2.trace) hq
  simp only [poolQuery] at hw1
  cases res with
  | error e => simp [← hw1]
  | ok rows =>
    cases rows with
    | nil => simp [← hw1]
    | cons u rest =>
      simp only []
      generalize hc : bcryptCompare env _ _ w1 = r2
      obtain ⟨res2, w2⟩ := r2
      have hw2 := congrArg (fun x => x.2.trace) hc
      simp only [bcryptCompare] at hw2
      cases res2 with
      | error e => simp [← hw2, ← hw1]
      | ok b =>
        cases b with
        | false => simp [← hw2, ← hw1]
        | true =>
          simp only []
          generalize hs : jwtSign env _ w2 = r3
          obtain ⟨res3, w3⟩ := r3
          have hw3 := congrArg (fun x => x.2.trace) hs
          simp only [jwtSign] at hw3
          cases res3 <;> simp [← hw3, ← hw2, ← hw1]

theorem loginAsUser_sign_payload (env : Env σ) (req : Request) (w : World σ) (payload : Row)
    (h : Effect.sign payload ∈ effectsOf (loginAsUser env req) w) :
    ∃ u rest, (poolQuery env sqlSelectUserByEmail [req.body.get "email"] w).1
        = Except.ok (u :: rest) ∧
      payload = [("id", u.get "id"), ("role", u.get "role")] := by
  revert h
  unfold effectsOf loginAsUser
  simp only []
  generalize hq : poolQuery env sqlSelectUserByEmail _ w = r
  obtain ⟨res, w1⟩ := r
  have hw1 := congrArg (fun x => x.2.trace) hq
  simp only [poolQuery] at hw1
  cases res with
  | error e => simp [← hw1]
  | ok rows =>
    cases rows with
    | nil => simp [← hw1]
    | cons u rest =>
      simp only []
      generalize hc : bcryptCompare env _ _ w1 = r2
      obtain ⟨res2, w2⟩ := r2
      have hw2 := congrArg (fun x => x.2.trace) hc
      simp only [bcryptCompare] at hw2
      cases res2 with
      | error e => simp [← hw2, ← hw1]
      | ok b =>
        cases b with
        | false => simp [← hw2, ← hw1]
        | true =>
          simp only []
          split
          · simp [← hw2, ← hw1]
          · generalize hs : jwtSign env _ w2 = r3
            obtain ⟨res3, w3⟩ := r3
            have hw3 := congrArg (fun x => x.2.trace) hs
            simp only [jwtSign] at hw3
            cases res3 <;> simp [← hw3, ← hw2, ← hw1]

theorem loginAsAdvertiser_sign_payload (env : Env σ) (req : Request) (w : World σ)
    (payload : Row)
    (h : Effect.sign payload ∈ effectsOf (loginAsAdvertiser env req) w) :
    ∃ u rest, (poolQuery env sqlSelectUserByEmail [req.body.get "email"] w).1
        = Except.ok (u :: rest) ∧
      payload = [("id", u.get "id"), ("role", u.get "role")] := by
  revert h
  unfold effectsOf loginAsAdvertiser
  simp only []
  generalize hq : poolQuery env sqlSelectUserByEmail _ w = r
  obtain ⟨res, w1⟩ := r
  have hw1 := congrArg (fun x => x.2.trace) hq
  simp only [poolQuery] at hw1
  cases res with
  | error e => simp [← hw1]
  | ok rows =>
    cases rows with
    | nil => simp [← hw1]
    | cons u rest =>
      simp only []
      generalize hc : bcryptCompare env _ _ w1 = r2
      obtain ⟨res2, w2⟩ := r2
      have hw2 := congrArg (fun x => x.2.trace) hc
      simp only [bcryptCompare] at hw2
      cases res2 with
      | error e => simp [← hw2, ← hw1]
      | ok b =>
        cases b with
        | false => simp [← hw2, ← hw1]
        | true =>
          simp only []
          split
          · simp [← hw2, ← hw1]
          · generalize hs : jwtSign env _ w2 = r3
            obtain ⟨res3, w3⟩ := r3
            have hw3 := congrArg (fun x => x.2.trace) hs
            simp only [jwtSign] at hw3
            cases res3 <;> simp [← hw3, ← hw2, ← hw1]

theorem login_valid (env : Env σ) (req : Request) (w : World σ) (u : Row) (rest : List Row)
    (s h token : String)
    (hpass : req.body.get "password" = JsVal.str s)
    (hq : (poolQuery env sqlSelectUserByEmail [req.body.get "email"] w).1
      = Except.ok (u :: rest))
    (hhash : u.get "password_hash" = JsVal.str h)
    (hcheck : env.checkPassword s h = true)
    (hsign : env.sign [("id", u.get "id"), ("role", u.get "role")] = Except.ok token) :
    (loginUser env req w).1 = ⟨200, tokenBody token⟩ ∧
    (loginAsUser env req w).1
      = (if (u.get "role").strictEq (JsVal.str "user") then ⟨200, tokenBody token⟩
          else ⟨403, errorBody "Account is not a normal user"⟩) ∧
    (loginAsAdvertiser env req w).1
      = (if (JsVal.str "advertiser").strictEq (u.get "role")
            || (JsVal.str "admin").strictEq (u.get "role") then ⟨200, tokenBody token⟩
          else ⟨403, errorBody "Account is not an advertiser"⟩) := by
  have hpair : poolQuery env sqlSelectUserByEmail [req.body.get "email"] w
      = (Except.ok (u :: rest),
        (poolQuery env sqlSelectUserByEmail [req.body.get "email"] w).2) :=
    Prod.ext hq rfl
  refine ⟨?_, ?_, ?_⟩
  · unfold loginUser; simp only []; rw [hpair]
    simp [bcryptCompare, hpass, hhash, hcheck, jwtSign, hsign]
  · unfold loginAsUser; simp only []; rw [hpair]
    simp only [bcryptCompare, hpass, hhash, hcheck, jwtSign, hsign]
    cases (u.get "role").strictEq (JsVal.str "user") <;> simp
  · unfold loginAsAdvertiser; simp only []; rw [hpair]
    simp only [bcryptCompare, hpass, hhash, hcheck, jwtSign, hsign]
    cases h1 : (JsVal.str "advertiser").strictEq (u.get "role") <;>
      cases h2 : (JsVal.str "admin").strictEq (u.get "role") <;> simp [h1, h2]

theorem JsVal.strictEq_str_iff (v : JsVal) (t : String) :
    v.strictEq (JsVal.str t) = true ↔ v = JsVal.str t := by
  constructor
  · exact JsVal.strictEq_eq
  · intro h; subst h; simp [JsVal.strictEq]

theorem JsVal.str_strictEq_iff (v : JsVal) (t : String) :
    (JsVal.str t).strictEq v = true ↔ v = JsVal.str t := by
  constructor
  · intro h; exact (JsVal.strictEq_eq h).symm
  · intro h; subst h; simp [JsVal.strictEq]

/-- C11. For a request with a valid (email, password) pair of a stored user
`u`, the signer producing `token` for the payload `{id: u.id, role: u.role}`:
`loginUser` answers 200 with that token; `loginAsUser` answers 200 with it if
and only if `u.role = 'user'` and 403 otherwise; `loginAsAdvertiser` answers
200 with it if and only if `u.role` is `'advertiser'` or `'admin'` and 403
otherwise. Whatever the request, every payload a login handler signs is
`{id, role}` of the row the lookup returned: no token carries another role. -/
theorem login_issues_stored_role (env : Env σ) (req : Request) (w : World σ) :
    (∀ (u : Row) (rest : List Row) (s h token : String),
      req.body.get "password" = JsVal.str s →
      (poolQuery env sqlSelectUserByEmail [req.body.get "email"] w).1
        = Except.ok (u :: rest) →
      u.get "password_hash" = JsVal.str h →
      env.checkPassword s h = true →
      env.sign [("id", u.get "id"), ("role", u.get "role")] = Except.ok token →
      (loginUser env req w).1 = ⟨200, tokenBody token⟩ ∧
      ((loginAsUser env req w).1 = ⟨200, tokenBody token⟩ ↔ u.get "role" = JsVal.str "user") ∧
      (u.get "role" ≠ JsVal.str "user" → (loginAsUser env req w).1.status = 403) ∧
      ((loginAsAdvertiser env req w).1 = ⟨200, tokenBody token⟩ ↔
        (u.get "role" = JsVal.str "advertiser" ∨ u.get "role" = JsVal.str "admin")) ∧
      (¬ (u.get "role" = JsVal.str "advertiser" ∨ u.get "role" = JsVal.str "admin") →
        (loginAsAdvertiser env req w).1.status = 403)) ∧
    (∀ payload : Row,
      (Effect.sign payload ∈ effectsOf (loginUser env req) w ∨
        Effect.sign payload ∈ effectsOf (loginAsUser env req) w ∨
        Effect.sign payload ∈ effectsOf (loginAsAdvertiser env req) w) →
      ∃ u rest, (poolQuery env sqlSelectUserByEmail [req.body.get "email"] w).1
          = Except.ok (u :: rest) ∧
        payload = [("id", u.get "id"), ("role", u.get "role")]) := by
  refine ⟨?_, ?_⟩
  · intro u rest s h token hpass hq hhash hcheck hsign
    obtain ⟨h1, h2, h3⟩ := login_valid env req w u rest s h token hpass hq hhash hcheck hsign
    refine ⟨h1, ?_, ?_, ?_, ?_⟩
    · rw [h2, ← JsVal.strictEq_str_iff]
      cases (u.get "role").strictEq (JsVal.str "user") <;> simp
    · intro hne
      have hf : (u.get "role").strictEq (JsVal.str "user") = false :=
        JsVal.strictEq_false_of_ne hne
      rw [h2, hf]; rfl
    · rw [h3, ← JsVal.str_strictEq_iff, ← JsVal.str_strictEq_iff]
      cases (JsVal.str "advertiser").strictEq (u.get "role") <;>
        cases (JsVal.str "admin").strictEq (u.get "role") <;> simp
    · intro hne
      have hf1 : (JsVal.str "advertiser").strictEq (u.get "role") = false :=
        JsVal.strictEq_false_of_ne (fun h => hne (Or.inl h.symm))
      have hf2 : (JsVal.str "admin").strictEq (u.get "role") = false :=
        JsVal.strictEq_false_of_ne (fun h => hne (Or.inr h.symm))
      rw [h3, hf1, hf2]; rfl
  · intro payload h
    rcases h with h | h | h
    · exact loginUser_sign_payload env req w payload h
    · exact loginAsUser_sign_payload env req w payload h
    · exact loginAsAdvertiser_sign_payload env req w payload h

/-- Witness for C11: Alice, a normal user, logs in with her password; the
generic and the user login answer 200 with the token signed for
`{id: 1, role: 'user'}`, the advertiser login answers 403. -/
theorem login_issues_stored_role_witness :
    (loginUser plainUsersEnv validLogin ⟨[aliceRow], []⟩).1 = ⟨200, tokenBody "token"⟩ ∧
    (loginAsUser plainUsersEnv validLogin ⟨[aliceRow], []⟩).1 = ⟨200, tokenBody "token"⟩ ∧
    (loginAsAdvertiser plainUsersEnv validLogin ⟨[aliceRow], []⟩).1.status = 403 ∧
    Effect.sign [("id", JsVal.num (JsNum.fin 1)), ("role", JsVal.str "user")]
      ∈ effectsOf (loginUser plainUsersEnv validLogin) ⟨[aliceRow], []⟩ := by
  have h := (login_issues_stored_role plainUsersEnv validLogin ⟨[aliceRow], []⟩).1
    aliceRow [] "secret" "hashed:secret" "token" rfl rfl rfl (by decide) rfl
  exact ⟨h.1, h.2.1.mpr (by decide), h.2.2.2.2 (by decide), by decide!⟩

/-! ## The filter of `getPosts` -/

theorem numbered_getElem (fs : List (String × JsVal)) (j k : ℕ) :
    (numbered j fs)[k]? = fs[k]?.map fun f => f.1 ++ " = $" ++ toString (j + k + 1) := by
  induction fs generalizing j k with
  | nil => simp [numbered]
  | cons f fs ih =>
    cases k with
    | zero => simp [numbered]
    | succ k =>
      simp only [numbered, List.getElem?_cons_succ, ih]
      congr 1
      funext f
      congr 2
      omega

theorem numbered_length (fs : List (String × JsVal)) (j : ℕ) :
    (numbered j fs).length = fs.length := by
  induction fs generalizing j with
  | nil => rfl
  | cons f fs ih => simp [numbered, ih]

theorem buildFilters_eq (c t wr : JsVal) :
    buildFilters c t wr
      = (numbered 0 (providedFilters c t wr), (providedFilters c t wr).map Prod.snd,
          (providedFilters c t wr).length) := by
  unfold buildFilters providedFilters
  cases c.truthy <;> cases t.truthy <;> cases wr.strictEq JsVal.undefined <;> rfl

theorem whereClauseOf_numbered (fs : List (String × JsVal)) :
    whereClauseOf (numbered 0 fs) = conjunction fs := by
  unfold whereClauseOf conjunction
  rw [numbered_length]
  cases fs with
  | nil => rfl
  | cons f fs => simp

theorem take_filters (A : List JsVal) (x y : JsVal) :
    (A ++ [x, y]).take ((A ++ [x, y]).length - 2) = A := by
  simp

theorem getPosts_effects (env : Env σ) (req : Request) (w : World σ) :
    effectsOf (getPosts env req) w
      = postsStatement req.filters req.page req.limit
        :: (match (poolQuery env
              (sqlPosts (conjunction req.filters) (req.filters.length + 1)
                (req.filters.length + 2))
              (req.filters.map Prod.snd
                ++ [JsVal.num req.limit.parseInt,
                  (req.page.sub (JsVal.num (JsNum.fin 1))).mul req.limit]) w).1 with
            | Except.error _ => []
            | Except.ok _ => [countStatement req.filters]) := by
  unfold effectsOf getPosts postsStatement countStatement Request.filters Request.page
    Request.limit
  simp only []
  rw [buildFilters_eq]
  simp only [whereClauseOf_numbered, take_filters]
  generalize hq : poolQuery env (sqlPosts _ _ _) _ w = r
  obtain ⟨res, w1⟩ := r
  have hw1 := congrArg (fun x => x.2.trace) hq
  simp only [poolQuery] at hw1
  cases res with
  | error e => simp [← hw1]
  | ok rows =>
    simp only []
    generalize hc : poolQuery env (sqlCountPosts _) _ w1 = r2
    obtain ⟨res2, w2⟩ := r2
    have hw2 := congrArg (fun x => x.2.trace) hc
    simp only [poolQuery] at hw2
    cases res2 with
    | error e => simp [← hw2, ← hw1]
    | ok rows2 =>
      cases rows2 <;> simp [← hw2, ← hw1]

/-- C13 (as amended). Whatever the query of a `getPosts` request, with `fs`
its provided filters (`category_id` and `type` when non-empty,
`with_reservation` when defined, bound as `with_reservation === 'true'`): the
builder yields one condition per provided filter and none for the others, the
k-th condition compares its column with `$k` and `queryParams[k-1]` is its
value, the clause is the AND of the conditions and is absent when there is
none; the page statement carries `LIMIT` and `OFFSET` on the next two
placeholders bound to `parseInt(limit)` and `(page - 1) * limit`, and the
count statement, issued when the page statement succeeds, carries the same
clause and exactly the filter values. -/
theorem getPosts_where_clause (env : Env σ) (req : Request) (w : World σ) :
    buildFilters (req.query.get "category_id") (req.query.get "type")
        (req.query.get "with_reservation")
      = (numbered 0 req.filters, req.filters.map Prod.snd, req.filters.length) ∧
    (∀ (k : ℕ) (f : String × JsVal), req.filters[k]? = some f →
      (numbered 0 req.filters)[k]? = some (f.1 ++ " = $" ++ toString (k + 1)) ∧
      (req.filters.map Prod.snd)[k]? = some f.2) ∧
    whereClauseOf (numbered 0 req.filters)
      = (if req.filters = [] then ""
          else "WHERE " ++ " AND ".intercalate (numbered 0 req.filters)) ∧
    (effectsOf (getPosts env req) w = [postsStatement req.filters req.page req.limit] ∨
      effectsOf (getPosts env req) w
        = [postsStatement req.filters req.page req.limit, countStatement req.filters]) ∧
    ((getPosts env req w).1.status = 200 →
      effectsOf (getPosts env req) w
        = [postsStatement req.filters req.page req.limit, countStatement req.filters]) := by
  refine ⟨buildFilters_eq _ _ _, ?_, whereClauseOf_numbered _, ?_, ?_⟩
  · intro k f hf
    rw [numbered_getElem, List.getElem?_map, hf]
    simp
  · rw [getPosts_effects]
    cases (poolQuery env (sqlPosts (conjunction req.filters) (req.filters.length + 1)
      (req.filters.length + 2)) (req.filters.map Prod.snd
        ++ [JsVal.num req.limit.parseInt,
          (req.page.sub (JsVal.num (JsNum.fin 1))).mul req.limit]) w).1 with
    | error e => exact Or.inl rfl
    | ok rows => exact Or.inr rfl
  · intro hok
    rw [getPosts_effects]
    cases hq : (poolQuery env (sqlPosts (conjunction req.filters) (req.filters.length + 1)
      (req.filters.length + 2)) (req.filters.map Prod.snd
        ++ [JsVal.num req.limit.parseInt,
          (req.page.sub (JsVal.num (JsNum.fin 1))).mul req.limit]) w).1 with
    | ok rows => rfl
    | error e =>
      exfalso
      have hpair : poolQuery env (sqlPosts (conjunction req.filters) (req.filters.length + 1)
          (req.filters.length + 2)) (req.filters.map Prod.snd
            ++ [JsVal.num req.limit.parseInt,
              (req.page.sub (JsVal.num (JsNum.fin 1))).mul req.limit]) w
          = (Except.error e, (poolQuery env (sqlPosts (conjunction req.filters)
              (req.filters.length + 1) (req.filters.length + 2)) (req.filters.map Prod.snd
                ++ [JsVal.num req.limit.parseInt,
                  (req.page.sub (JsVal.num (JsNum.fin 1))).mul req.limit]) w).2) :=
        Prod.ext hq rfl
      revert hok
      unfold Request.filters Request.page Request.limit at hpair
      unfold getPosts
      simp only []
      rw [buildFilters_eq]
      simp only [whereClauseOf_numbered]
      rw [hpair]
      simp

/-- Witness for C13: category 3, `with_reservation=false`, page 2 with the
default limit give two conditions on `$1` and `$2`, `LIMIT $3 OFFSET $4`
bound to 10 and 10, and a count statement with the two filter values. -/
theorem getPosts_where_clause_witness :
    whereClauseOf (numbered 0 filteredRequest.filters)
      = "WHERE p.category_id = $1 AND p.with_reservation = $2" ∧
    effectsOf (getPosts scriptedEnv filteredRequest) sevenPostsWorld
      = [Effect.query
          (sqlPosts "WHERE p.category_id = $1 AND p.with_reservation = $2" 3 4)
          [JsVal.str "3", JsVal.bool false, JsVal.num (JsNum.fin 10), JsVal.num (JsNum.fin 10)],
        Effect.query
          (sqlCountPosts "WHERE p.category_id = $1 AND p.with_reservation = $2")
          [JsVal.str "3", JsVal.bool false]] := by
  have h := (getPosts_where_clause scriptedEnv filteredRequest sevenPostsWorld).2.2.2.2
    (by decide!)
  exact ⟨by decide, h.trans (by decide!)⟩

/-- Counterexample to C13 as stated: the request `?category_id=` has one
filter parameter present, and the handler builds no condition and no clause
for it. -/
theorem getPosts_where_clause_counterexample :
    presentCount emptyCategoryRequest = 1 ∧
    (buildFilters (emptyCategoryRequest.query.get "category_id")
      (emptyCategoryRequest.query.get "type")
      (emptyCategoryRequest.query.get "with_reservation")).1 = [] ∧
    effectsOf (getPosts scriptedEnv emptyCategoryRequest) sevenPostsWorld
      = [Effect.query (sqlPosts "" 1 2) [JsVal.num (JsNum.fin 10), JsVal.num (JsNum.fin 0)],
        Effect.query (sqlCountPosts "") []] ∧
    ¬ ((buildFilters (emptyCategoryRequest.query.get "category_id")
      (emptyCategoryRequest.query.get "type")
      (emptyCategoryRequest.query.get "with_reservation")).1.length
        = presentCount emptyCategoryRequest) := by
  decide!

/-! ## Pages of `getPosts` over a snapshot -/

theorem natOf_natCast (n : ℕ) : natOf (JsVal.num (JsNum.fin (n : ℚ))) = some n := by
  simp [natOf]

theorem pageRows_eq (matching : List Row) (A : List JsVal) (l o : ℕ) :
    pageRows matching (A ++ [JsVal.num (JsNum.fin (l : ℚ)), JsVal.num (JsNum.fin (o : ℚ))])
      = Except.ok ((matching.drop o).take l) := by
  simp [pageRows, natOf_natCast]

theorem getPosts_answered (env : Env σ) (req : Request) (w : World σ)
    (rows : List Row) (countRow : Row) (rest : List Row)
    (hdata : (poolQuery env (postsSql req) (postsParams req) w).1 = Except.ok rows)
    (hcount : (poolQuery env (countSql req) (countParams req)
      (poolQuery env (postsSql req) (postsParams req) w).2).1 = Except.ok (countRow :: rest)) :
    (getPosts env req w).1 = ⟨200, Json.obj [
        ("posts", Json.arr (rows.map Json.ofRow)),
        ("pagination", Json.obj [
          ("current_page", Json.val (JsVal.num req.page.parseInt)),
          ("total_pages", Json.val
            (((JsVal.num (countRow.get "total").parseInt).div req.limit).ceil)),
          ("total_posts", Json.val (JsVal.num (countRow.get "total").parseInt)),
          ("posts_per_page", Json.val (JsVal.num req.limit.parseInt)),
          ("has_next_page", Json.val (JsVal.bool ((JsVal.num req.page.parseInt).lt
            (((JsVal.num (countRow.get "total").parseInt).div req.limit).ceil)))),
          ("has_prev_page", Json.val (JsVal.bool
            ((JsVal.num req.page.parseInt).gt (JsVal.num (JsNum.fin 1)))))])]⟩ := by
  have h1 : poolQuery env (postsSql req) (postsParams req) w
      = (Except.ok rows, (poolQuery env (postsSql req) (postsParams req) w).2) :=
    Prod.ext hdata rfl
  have h2 : poolQuery env (countSql req) (countParams req)
        (poolQuery env (postsSql req) (postsParams req) w).2
      = (Except.ok (countRow :: rest), (poolQuery env (countSql req) (countParams req)
        (poolQuery env (postsSql req) (postsParams req) w).2).2) :=
    Prod.ext hcount rfl
  simp only [postsSql, postsParams, countSql, countParams, Request.filters, Request.page,
    Request.limit] at h1 h2
  unfold getPosts Request.page Request.limit
  simp only []
  rw [buildFilters_eq]
  simp only [whereClauseOf_numbered, take_filters]
  rw [h1]
  simp only []
  rw [h2]
theorem lt_pages_iff (T L p n : ℕ) (hn : IsLeast {m : ℕ | T ≤ m * L} n) :
    p < n ↔ p * L < T := by
  constructor
  · intro h
    by_contra hc
    have hle : T ≤ p * L := Nat.le_of_not_lt hc
    have : n ≤ p := hn.2 hle
    omega
  · intro h
    by_contra hc
    have hnp : n ≤ p := Nat.le_of_not_lt hc
    have h1 : T ≤ n * L := hn.1
    have h2 : n * L ≤ p * L := Nat.mul_le_mul_right L hnp
    omega

theorem page_nonempty_iff (matching : List Row) (o L : ℕ) (hL : 1 ≤ L) :
    (matching.drop o).take L ≠ [] ↔ o < matching.length := by
  rw [Ne, List.take_eq_nil_iff, List.drop_eq_nil_iff]
  constructor
  · intro h
    by_contra hc
    exact h (Or.inr (Nat.le_of_not_lt hc))
  · intro h hc
    rcases hc with hc | hc <;> omega

theorem offset_value (page limit : JsVal) (L p : ℕ) (hp : 1 ≤ p)
    (hlimN : limit.toNumber = JsNum.fin L) (hpageN : page.toNumber = JsNum.fin p) :
    (page.sub (JsVal.num (JsNum.fin 1))).mul limit
      = JsVal.num (JsNum.fin (((p - 1) * L : ℕ) : ℚ)) := by
  unfold JsVal.mul JsVal.sub
  rw [hlimN, hpageN]
  simp only [JsVal.toNumber, JsNum.sub, JsNum.mul]
  push_cast [Nat.cast_sub hp]
  rfl

/-- C14. In `getPosts`, for a page size `L ≥ 1` and a page `p ≥ 1`, when the
page statement and the count statement are answered from the same list
`matching` of `T` posts (`LIMIT`/`OFFSET` over the list, `COUNT` its length):
the response is 200 with the rows at offset `(p - 1) * L`; `has_next_page` is
true if and only if `p * L < T`, that is if and only if the page at offset
`p * L` holds at least one post; the returned page is non-empty exactly when
`p ≤ total_pages` and holds at most `L` posts. -/
theorem getPosts_snapshot (env : Env σ) (req : Request) (w : World σ)
    (matching : List Row) (L p : ℕ) (countRow : Row) (rest : List Row)
    (hL : 1 ≤ L) (hp : 1 ≤ p)
    (hlimN : req.limit.toNumber = JsNum.fin L) (hlimP : req.limit.parseInt = JsNum.fin L)
    (hpageN : req.page.toNumber = JsNum.fin p) (hpageP : req.page.parseInt = JsNum.fin p)
    (hdata : (poolQuery env (postsSql req) (postsParams req) w).1
      = pageRows matching (postsParams req))
    (hcount : (poolQuery env (countSql req) (countParams req)
      (poolQuery env (postsSql req) (postsParams req) w).2).1 = Except.ok (countRow :: rest))
    (htotal : (countRow.get "total").parseInt = JsNum.fin matching.length) :
    (getPosts env req w).1.status = 200 ∧
    (getPosts env req w).1.body.get "posts"
      = Json.arr (((matching.drop ((p - 1) * L)).take L).map Json.ofRow) ∧
    (getPosts env req w).1.pagination.get "has_next_page"
      = Json.val (JsVal.bool (decide (p * L < matching.length))) ∧
    (p * L < matching.length ↔ (matching.drop (p * L)).take L ≠ []) ∧
    pageRows matching (countParams req
        ++ [JsVal.num (JsNum.fin L), JsVal.num (JsNum.fin ((p * L : ℕ) : ℚ))])
      = Except.ok ((matching.drop (p * L)).take L) ∧
    ∃ n : ℕ, (getPosts env req w).1.pagination.get "total_pages"
        = Json.val (JsVal.num (JsNum.fin n)) ∧
      ((matching.drop ((p - 1) * L)).take L ≠ [] ↔ p ≤ n) ∧
      ((matching.drop ((p - 1) * L)).take L).length ≤ L := by
  have hparams : postsParams req = countParams req
      ++ [JsVal.num (JsNum.fin (L : ℚ)), JsVal.num (JsNum.fin (((p - 1) * L : ℕ) : ℚ))] := by
    unfold postsParams countParams
    rw [hlimP, offset_value req.page req.limit L p hp hlimN hpageN]
  rw [hparams, pageRows_eq, ← hparams] at hdata
  have hresp := getPosts_answered env req w _ countRow rest hdata hcount
  have hleast := (ceil_div_isLeast matching.length L hL).1
  have hpages := totalPages_value req.limit matching.length L hL hlimN
  rw [hpageP, htotal, hpages] at hresp
  have hnext : ((p : ℚ) < ((⌈(matching.length : ℚ) / L⌉.toNat : ℕ) : ℚ))
      ↔ p * L < matching.length := by
    rw [Nat.cast_lt]
    exact lt_pages_iff matching.length L p _ hleast
  rw [hresp]
  refine ⟨rfl, ?_, ?_, ?_, pageRows_eq _ _ _ _, ⌈(matching.length : ℚ) / L⌉.toNat, ?_, ?_, ?_⟩
  · simp [Json.get, List.lookup]
  · simp [Response.pagination, Json.get, List.lookup, JsVal.lt, JsVal.toNumber, JsNum.lt, hnext]
  · exact ((page_nonempty_iff matching (p * L) L hL).symm)
  · simp [Response.pagination, Json.get, List.lookup]
  · rw [page_nonempty_iff matching _ L hL,
      ← lt_pages_iff matching.length L (p - 1) _ hleast]
    omega
  · exact List.length_take_le _ _

/-- Witness for C14: page 2 of seven posts in pages of 3 holds posts 4, 3
and 2, reports a next page (6 < 7) and 3 pages in all. -/
theorem getPosts_snapshot_witness :
    (getPosts scriptedEnv pageTwoRequest pageTwoWorld).1.status = 200 ∧
    (getPosts scriptedEnv pageTwoRequest pageTwoWorld).1.body.get "posts"
      = Json.arr [Json.ofRow [("id", JsVal.num (JsNum.fin 4))],
          Json.ofRow [("id", JsVal.num (JsNum.fin 3))],
          Json.ofRow [("id", JsVal.num (JsNum.fin 2))]] ∧
    (getPosts scriptedEnv pageTwoRequest pageTwoWorld).1.pagination.get "has_next_page"
      = Json.val (JsVal.bool true) := by
  have h := getPosts_snapshot scriptedEnv pageTwoRequest pageTwoWorld sevenRows 3 2
    [("total", JsVal.str "7")] [] (by decide) (by decide) (by decide!) (by decide!)
    (by decide!) (by decide!) (by decide!) (by decide!) (by decide!)
  exact ⟨h.1, h.2.1, h.2.2.1⟩

/-! ## `savePost` -/

theorem saved_filter_pos (db : SavedDb) (c p : ℤ) :
    0 < (List.filter (fun r : SavedPost => decide (r.client_id = c) && decide (r.post_id = p))
      db.saved).length ↔ (c, p) ∈ db.pairs := by
  rw [List.length_pos_iff_exists_mem]
  simp [SavedDb.pairs, List.mem_filter]

theorem savePost_cases (key : JsVal → Except JsError (Option ℤ)) (req : Request)
    (w : World SavedDb) :
    ((savePost (savedEnv key) req w).2.store = w.store) ∨
    (∃ c p, key (req.body.get "client_id") = Except.ok (some c) ∧
      key (req.body.get "post_id") = Except.ok (some p) ∧ p ∈ w.store.posts ∧
      (c, p) ∉ w.store.pairs ∧ (savePost (savedEnv key) req w).1.status = 201 ∧
      (savePost (savedEnv key) req w).2.store
        = { w.store with saved := w.store.saved
            ++ [⟨w.store.saved.length + 1, c, p, JsNum.fin 1000⟩] }) := by
  have n1 : sqlSelectSaved ≠ sqlSelectPost := by decide
  have n2 : sqlInsertSaved ≠ sqlSelectPost := by decide
  have n3 : sqlInsertSaved ≠ sqlSelectSaved := by decide
  rcases hp : key (req.body.get "post_id") with e | (_ | p)
  · left
    simp [savePost, poolQuery, savedEnv, savedQuery, hp]
  · left
    simp [savePost, poolQuery, savedEnv, savedQuery, hp]
  · by_cases hmem : p ∈ w.store.posts
    · rcases hc : key (req.body.get "client_id") with e | (_ | c)
      · left
        simp [savePost, poolQuery, savedEnv, savedQuery, n1, hp, hc, hmem]
      · left
        simp [savePost, poolQuery, savedEnv, savedQuery, n1, n2, n3, hp, hc, hmem]
      · by_cases hs : (c, p) ∈ w.store.pairs
        · left
          simp only [savePost, poolQuery, savedEnv, savedQuery, n1, hp, hc, hmem, if_true,
            if_false]
          simp [saved_filter_pos, hs]
        · right
          refine ⟨c, p, rfl, rfl, hmem, hs, ?_, ?_⟩
          · simp only [savePost, poolQuery, savedEnv, savedQuery, n1, n2, n3, hp, hc, hmem,
              if_true, if_false]
            simp [saved_filter_pos, hs]
          · simp only [savePost, poolQuery, savedEnv, savedQuery, n1, n2, n3, hp, hc, hmem,
              if_true, if_false]
            simp [saved_filter_pos, hs]
    · left
      simp [savePost, poolQuery, savedEnv, savedQuery, hp, hmem]
theorem savePost_missing (key : JsVal → Except JsError (Option ℤ)) (req : Request)
    (w : World SavedDb)
    (h : key (req.body.get "post_id") = Except.ok none ∨
      ∃ p, key (req.body.get "post_id") = Except.ok (some p) ∧ p ∉ w.store.posts) :
    (savePost (savedEnv key) req w).1 = ⟨404, errorBody "Post not found"⟩ ∧
    (savePost (savedEnv key) req w).2.store = w.store := by
  rcases h with hp | ⟨p, hp, hmem⟩
  · simp [savePost, poolQuery, savedEnv, savedQuery, hp]
  · simp [savePost, poolQuery, savedEnv, savedQuery, hp, hmem]

theorem savePost_existing (key : JsVal → Except JsError (Option ℤ)) (req : Request)
    (w : World SavedDb) (c p : ℤ)
    (hc : key (req.body.get "client_id") = Except.ok (some c))
    (hp : key (req.body.get "post_id") = Except.ok (some p))
    (hmem : p ∈ w.store.posts) :
    ((c, p) ∈ w.store.pairs →
      (savePost (savedEnv key) req w).1 = ⟨409, errorBody "Post already saved"⟩ ∧
      (savePost (savedEnv key) req w).2.store = w.store) ∧
    ((c, p) ∉ w.store.pairs →
      (savePost (savedEnv key) req w).1.status = 201 ∧
      (savePost (savedEnv key) req w).2.store
        = { w.store with saved := w.store.saved
            ++ [⟨w.store.saved.length + 1, c, p, JsNum.fin 1000⟩] }) := by
  have n1 : sqlSelectSaved ≠ sqlSelectPost := by decide
  have n2 : sqlInsertSaved ≠ sqlSelectPost := by decide
  have n3 : sqlInsertSaved ≠ sqlSelectSaved := by decide
  refine ⟨?_, ?_⟩
  · intro hs
    simp only [savePost, poolQuery, savedEnv, savedQuery, n1, hp, hc, hmem, if_true, if_false]
    simp [saved_filter_pos, hs]
  · intro hs
    simp only [savePost, poolQuery, savedEnv, savedQuery, n1, n2, n3, hp, hc, hmem, if_true,
      if_false]
    simp [saved_filter_pos, hs]

theorem pairs_append (db : SavedDb) (r : SavedPost) :
    SavedDb.pairs { db with saved := db.saved ++ [r] }
      = db.pairs ++ [(r.client_id, r.post_id)] := by
  simp [SavedDb.pairs]

theorem savePost_nodup (key : JsVal → Except JsError (Option ℤ)) (req : Request)
    (w : World SavedDb) (h : w.store.pairs.Nodup) :
    (savePost (savedEnv key) req w).2.store.pairs.Nodup := by
  rcases savePost_cases key req w with hsame | ⟨c, p, _, _, _, hs, _, hstore⟩
  · rw [hsame]; exact h
  · rw [hstore, pairs_append]
    simp [List.nodup_append, h, hs]

theorem savePostAll_nodup (key : JsVal → Except JsError (Option ℤ)) (reqs : List Request)
    (w : World SavedDb) (h : w.store.pairs.Nodup) :
    (savePostAll (savedEnv key) reqs w).store.pairs.Nodup := by
  induction reqs generalizing w with
  | nil => exact h
  | cons req reqs ih =>
    exact ih _ (savePost_nodup key req w h)

/-- C12 (as amended). For every store state, reading of ids, client `c` and
existing post `p`: a first `savePost` call answers 201 and appends the pair
when `(c, p)` is not yet saved, and answers 409 leaving the store unchanged
when it already is; a second call with the same request answers 409 and
leaves `saved_posts` as the first call left it. Hence every sequence of
`savePost` calls keeps a duplicate-free `saved_posts` free of duplicates. If
the post does not exist the answer is 404 and the store is unchanged. -/
theorem savePost_twice (key : JsVal → Except JsError (Option ℤ)) (req : Request)
    (w : World SavedDb) (c p : ℤ)
    (hc : key (req.body.get "client_id") = Except.ok (some c))
    (hp : key (req.body.get "post_id") = Except.ok (some p))
    (hmem : p ∈ w.store.posts) :
    ((c, p) ∉ w.store.pairs →
      (savePost (savedEnv key) req w).1.status = 201 ∧
      (savePost (savedEnv key) req w).2.store.pairs = w.store.pairs ++ [(c, p)]) ∧
    ((c, p) ∈ w.store.pairs →
      (savePost (savedEnv key) req w).1.status = 409 ∧
      (savePost (savedEnv key) req w).2.store = w.store) ∧
    (savePost (savedEnv key) req (savePost (savedEnv key) req w).2).1
      = ⟨409, errorBody "Post already saved"⟩ ∧
    (savePost (savedEnv key) req (savePost (savedEnv key) req w).2).2.store
      = (savePost (savedEnv key) req w).2.store ∧
    (∀ (reqs : List Request) (w₀ : World SavedDb), w₀.store.pairs.Nodup →
      (savePostAll (savedEnv key) reqs w₀).store.pairs.Nodup) ∧
    (∀ (r : Request) (w₀ : World SavedDb),
      (key (r.body.get "post_id") = Except.ok none ∨
        ∃ q, key (r.body.get "post_id") = Except.ok (some q) ∧ q ∉ w₀.store.posts) →
      (savePost (savedEnv key) r w₀).1 = ⟨404, errorBody "Post not found"⟩ ∧
      (savePost (savedEnv key) r w₀).2.store = w₀.store) := by
  obtain ⟨hsaved, hfresh⟩ := savePost_existing key req w c p hc hp hmem
  have hafter : (c, p) ∈ (savePost (savedEnv key) req w).2.store.pairs ∧
      p ∈ (savePost (savedEnv key) req w).2.store.posts := by
    by_cases hs : (c, p) ∈ w.store.pairs
    · rw [(hsaved hs).2]; exact ⟨hs, hmem⟩
    · rw [(hfresh hs).2, pairs_append]
      exact ⟨by simp, hmem⟩
  have hsecond := (savePost_existing key req (savePost (savedEnv key) req w).2 c p hc hp
    hafter.2).1 hafter.1
  refine ⟨?_, ?_, hsecond.1, hsecond.2, ?_, ?_⟩
  · intro hs
    refine ⟨(hfresh hs).1, ?_⟩
    rw [(hfresh hs).2, pairs_append]
  · intro hs
    exact ⟨by rw [(hsaved hs).1], (hsaved hs).2⟩
  · intro reqs w₀ h
    exact savePostAll_nodup key reqs w₀ h
  · intro r w₀ h
    exact savePost_missing key r w₀ h

/-- Witness for C12: client 9 saves post 5 twice in a store where it was not
saved: 201, then 409 with the table unchanged; saving the missing post 6
answers 404. -/
theorem savePost_twice_witness :
    (savePost (savedEnv pgInteger) saveRequest ⟨freshSavedDb, []⟩).1.status = 201 ∧
    (savePost (savedEnv pgInteger) saveRequest ⟨freshSavedDb, []⟩).2.store.pairs = [(9, 5)] ∧
    (savePost (savedEnv pgInteger) saveRequest
      (savePost (savedEnv pgInteger) saveRequest ⟨freshSavedDb, []⟩).2).1
        = ⟨409, errorBody "Post already saved"⟩ ∧
    (savePost (savedEnv pgInteger) saveRequest
      (savePost (savedEnv pgInteger) saveRequest ⟨freshSavedDb, []⟩).2).2.store.pairs
        = [(9, 5)] ∧
    (savePost (savedEnv pgInteger) saveMissingRequest ⟨freshSavedDb, []⟩).1.status = 404 := by
  have h := savePost_twice pgInteger saveRequest ⟨freshSavedDb, []⟩ 9 5
    (by decide!) (by decide!) (by decide)
  have h1 := h.1 (by decide)
  have h404 := h.2.2.2.2.2 saveMissingRequest ⟨freshSavedDb, []⟩
    (Or.inr ⟨6, by decide!, by decide⟩)
  refine ⟨h1.1, h1.2, h.2.2.1, ?_, by rw [h404.1]⟩
  rw [h.2.2.2.1, h1.2]
  rfl

/-- Counterexample to C12 as stated: post 5 exists and client 9 has already
saved it; the first of the two calls answers 409, not 201. -/
theorem savePost_twice_counterexample :
    (5 : ℤ) ∈ savedOnceDb.posts ∧
    (savePost (savedEnv pgInteger) saveRequest ⟨savedOnceDb, []⟩).1
      = ⟨409, errorBody "Post already saved"⟩ ∧
    ¬ ((savePost (savedEnv pgInteger) saveRequest ⟨savedOnceDb, []⟩).1.status = 201) := by
  decide!

end Backend
